import Mathlib

/-!
Verification of the dashboard reconciliation library
`src/lib/charms/grafana_k8s/v0/grafana_dashboard.py`.

The Python module is shallowly embedded below.  Python dicts keyed by
relation ids become association lists (`List (Nat × _)`) with unique keys;
`dict.pop` with a default becomes `dictPop`, lookups become `dictLookup`,
and `d[k] = v` becomes `dictInsert` (which, like a Python dict, replaces in
place and appends fresh keys at the end, so iteration order is preserved).
Python exceptions are modelled by an `Option PyErr` field carried in each
result; state and output fields always hold the mutations performed before
the raise, matching Python's in-place mutation semantics.
-/

namespace GrafanaDashboard

/-! ## Association-list model of Python dicts -/

def dictLookup {α : Type} (k : Nat) : List (Nat × α) → Option α
  | [] => none
  | (k', v) :: rest => if k = k' then some v else dictLookup k rest

def dictInsert {α : Type} (k : Nat) (v : α) : List (Nat × α) → List (Nat × α)
  | [] => [(k, v)]
  | (k', v') :: rest => if k = k' then (k, v) :: rest else (k', v') :: dictInsert k v rest

/-- `dict.pop(k, default)`: returns the stored value (if any) and the dict
without the binding.  Reachable dicts never hold duplicate keys, so removing
every binding of `k` coincides with Python's removal of the unique binding. -/
def dictPop {α : Type} (k : Nat) : List (Nat × α) → Option α × List (Nat × α)
  | [] => (none, [])
  | (k', v) :: rest =>
    let r := dictPop k rest
    if k = k' then (some v, r.2) else (r.1, (k', v) :: r.2)

/-! ## Record codec

The Python code stores template bodies as
`base64.b64encode(zlib.compress(text.encode(), 9)).decode()` and reads them
back with `zlib.decompress(base64.b64decode(blob.encode())).decode()`
(source lines 205, 361, 380).  `base64` and UTF-8 are modelled exactly.
`zlib` is an external library whose DEFLATE stream format is out of scope;
per the spec (§4.4) the codec is only required to be a size-conscious
lossless compressor with an exact round-trip, so `compress`/`decompress`
below are modelled from the spec as a run-length coder over bytes. -/

/-- UTF-8 encoding of one scalar value, as `str.encode()` produces. -/
def utf8EncodeChar (c : Char) : List Nat :=
  let v := c.toNat
  if v < 128 then [v]
  else if v < 2048 then [192 + v / 64, 128 + v % 64]
  else if v < 65536 then [224 + v / 4096, 128 + v / 64 % 64, 128 + v % 64]
  else [240 + v / 262144, 128 + v / 4096 % 64, 128 + v / 64 % 64, 128 + v % 64]

def utf8Encode : List Char → List Nat
  | [] => []
  | c :: cs => utf8EncodeChar c ++ utf8Encode cs

/-- Is `b` a UTF-8 continuation byte? -/
def contB (b : Nat) : Bool := 128 ≤ b && b < 192

/- UTF-8 decoding, as `bytes.decode()` performs on well-formed input;
`utf8Dec2`/`utf8Dec3`/`utf8Dec4` read the continuation bytes of 2-, 3- and
4-byte sequences. -/
mutual

/-- Decode UTF-8 bytes to characters. -/
def utf8Decode : List Nat → Option (List Char)
  | [] => some []
  | b :: rest =>
    if b < 128 then (utf8Decode rest).map (fun cs => Char.ofNat b :: cs)
    else if b < 224 then utf8Dec2 b rest
    else if b < 240 then utf8Dec3 b rest
    else utf8Dec4 b rest
termination_by l => l.length
decreasing_by
  all_goals simp only [List.length_cons]
  all_goals omega

def utf8Dec2 (b : Nat) : List Nat → Option (List Char)
  | [] => none
  | b1 :: rest2 =>
    if 192 ≤ b && contB b1 then
      (utf8Decode rest2).map (fun cs => Char.ofNat ((b - 192) * 64 + (b1 - 128)) :: cs)
    else none
termination_by l => l.length
decreasing_by
  all_goals simp only [List.length_cons]
  all_goals omega

def utf8Dec3 (b : Nat) : List Nat → Option (List Char)
  | b1 :: b2 :: rest2 =>
    if contB b1 && contB b2 then
      (utf8Decode rest2).map
        (fun cs => Char.ofNat ((b - 224) * 4096 + (b1 - 128) * 64 + (b2 - 128)) :: cs)
    else none
  | _ => none
termination_by l => l.length
decreasing_by
  all_goals simp only [List.length_cons]
  all_goals omega

def utf8Dec4 (b : Nat) : List Nat → Option (List Char)
  | b1 :: b2 :: b3 :: rest2 =>
    if b < 248 && (contB b1 && (contB b2 && contB b3)) then
      (utf8Decode rest2).map
        (fun cs =>
          Char.ofNat ((b - 240) * 262144 + (b1 - 128) * 4096 + (b2 - 128) * 64 + (b3 - 128))
            :: cs)
    else none
  | _ => none
termination_by l => l.length
decreasing_by
  all_goals simp only [List.length_cons]
  all_goals omega

end

/-- Length of the run of `b`s at the head of the list. -/
def runLen (b : Nat) : List Nat → Nat
  | [] => 0
  | x :: xs => if x = b then runLen b xs + 1 else 0

/-- Modelled from the spec: the `zlib.compress(·, 9)` call (external
library, §4.4 "compress then encode to a text-safe representation").
A byte-level run-length coder: each run of up to 255 equal bytes becomes
a `(count, byte)` pair, keeping output bytes below 256. -/
def compress (l : List Nat) : List Nat :=
  match l with
  | [] => []
  | b :: rest =>
    let k := min (runLen b rest) 254
    (k + 1) :: b :: compress (rest.drop k)
termination_by l.length
decreasing_by
  simp only [List.length_drop, List.length_cons]
  omega

/-- Modelled from the spec: the `zlib.decompress` call; inverse of
`compress`, failing on streams `compress` cannot produce. -/
def decompress : List Nat → Option (List Nat)
  | [] => some []
  | n :: rest =>
    match rest with
    | [] => none
    | b :: rest2 =>
      if n = 0 then none
      else (decompress rest2).map (fun tl => List.replicate n b ++ tl)

/-- The base64 alphabet, sextet to character. -/
def encB64 (n : Nat) : Char :=
  if n < 26 then Char.ofNat (65 + n)
  else if n < 52 then Char.ofNat (71 + n)
  else if n < 62 then Char.ofNat (n - 4)
  else if n = 62 then '+' else '/'

/-- The base64 alphabet, character to sextet. -/
def decB64 (c : Char) : Option Nat :=
  let v := c.toNat
  if 65 ≤ v ∧ v ≤ 90 then some (v - 65)
  else if 97 ≤ v ∧ v ≤ 122 then some (v - 71)
  else if 48 ≤ v ∧ v ≤ 57 then some (v + 4)
  else if v = 43 then some 62
  else if v = 47 then some 63
  else none

/-- `base64.b64encode` over a byte list. -/
def b64EncodeBytes : List Nat → List Char
  | [] => []
  | [a] => [encB64 (a / 4), encB64 (a % 4 * 16), '=', '=']
  | [a, b] => [encB64 (a / 4), encB64 (a % 4 * 16 + b / 16), encB64 (b % 16 * 4), '=']
  | a :: b :: c :: rest =>
    encB64 (a / 4) :: encB64 (a % 4 * 16 + b / 16) :: encB64 (b % 16 * 4 + c / 64)
      :: encB64 (c % 64) :: b64EncodeBytes rest

/-- `base64.b64decode` over the characters of the blob (strict: rejects
inputs standard encoding cannot produce). -/
def b64DecodeBytes : List Char → Option (List Nat)
  | [] => some []
  | c1 :: c2 :: c3 :: c4 :: rest =>
    (decB64 c1).bind (fun s1 =>
      (decB64 c2).bind (fun s2 =>
        if c3 = '=' then
          if c4 = '=' ∧ rest = [] then some [s1 * 4 + s2 / 16] else none
        else
          (decB64 c3).bind (fun s3 =>
            if c4 = '=' then
              if rest = [] then some [s1 * 4 + s2 / 16, s2 % 16 * 16 + s3 / 4] else none
            else
              (decB64 c4).bind (fun s4 =>
                (b64DecodeBytes rest).map
                  (fun tl =>
                    (s1 * 4 + s2 / 16) :: (s2 % 16 * 16 + s3 / 4) :: (s3 % 4 * 64 + s4) :: tl)))))
  | _ => none

/-- `base64.b64encode(zlib.compress(s.encode(), 9)).decode()`. -/
def encodeStr (s : String) : String :=
  String.mk (b64EncodeBytes (compress (utf8Encode s.data)))

/-- `zlib.decompress(base64.b64decode(t.encode())).decode()`; `none` models
the uncaught `binascii.Error` / `zlib.error` / `UnicodeDecodeError` raised
on undecodable blobs. -/
def decodeStr (t : String) : Option String :=
  (b64DecodeBytes t.data).bind (fun bs =>
    (decompress bs).bind (fun bs2 =>
      (utf8Decode bs2).map (fun cs => String.mk cs)))

/-! ## Template engine

Modelled from the spec: `jinja2.Template` / `.render` (§1: "The template
rendering language itself … used as a black-box function
`render(template, bindings) -> string | RenderError`", §8: `"{{ unclosed"`
is a syntax error).  A template is literal text with `{{ name }}`
substitution slots; an unterminated slot is a `TemplateSyntaxError` at
construction time (`parseT` returns `none`), and rendering substitutes the
three bindings the source passes (source lines 372-376), with unknown
names rendering as empty text as jinja's default undefined does. -/

def lbrace : Char := Char.ofNat 123

def rbrace : Char := Char.ofNat 125

inductive TItem : Type
  | lit (s : List Char)
  | var (v : List Char)
deriving DecidableEq

def trimSpaces (l : List Char) : List Char :=
  ((l.dropWhile (· == ' ')).reverse.dropWhile (· == ' ')).reverse

/-- One-pass template scanner, structurally recursive on a character
budget so that concrete templates evaluate inside the kernel.  With the
mode flag `false` it scans literal text; after an opening `\x7b\x7b` it
switches to mode `true`, accumulating the variable name until the closing
`\x7d\x7d`; running out of input in variable mode is the syntax error. -/
def parseF : Nat → Bool → List Char → List Char → Option (List TItem)
  | _, false, _, [] => some []
  | _, true, _, [] => none
  | 0, _, _, _ :: _ => none
  | fuel + 1, false, acc, c1 :: rest' =>
    (match rest' with
     | [] => some [TItem.lit [c1]]
     | c2 :: rest =>
       if c1 == lbrace && c2 == lbrace then parseF fuel true [] rest
       else (parseF fuel false acc rest').map (fun ts => TItem.lit [c1] :: ts))
  | fuel + 1, true, acc, c1 :: rest' =>
    (match rest' with
     | [] => none
     | c2 :: rest =>
       if c1 == rbrace && c2 == rbrace then
         (parseF fuel false [] rest).map (fun ts => TItem.var (trimSpaces acc.reverse) :: ts)
       else parseF fuel true (c1 :: acc) rest')

/-- `jinja2.Template(src)` construction: `none` is `TemplateSyntaxError`. -/
def parseT (l : List Char) : Option (List TItem) := parseF l.length false [] l

def renderT (ds target query : String) : List TItem → List Char
  | [] => []
  | TItem.lit s :: rest => s ++ renderT ds target query rest
  | TItem.var v :: rest =>
    (if v = "grafana_datasource".data then ds.data
     else if v = "prometheus_target".data then target.data
     else if v = "prometheus_query".data then query.data
     else []) ++ renderT ds target query rest

/-! ## Substring containment (Python `needle in hay`) -/

def isPrefixL : List Char → List Char → Bool
  | [], _ => true
  | _ :: _, [] => false
  | a :: as, b :: bs => a == b && isPrefixL as bs

def containsL (needle : List Char) (hay : List Char) : Bool :=
  match hay with
  | [] => needle.isEmpty
  | b :: bs => isPrefixL needle (b :: bs) || containsL needle bs

/-- Python `needle in hay` on strings. -/
def strContains (hay needle : String) : Bool := containsL needle.data hay.data

/-! ## Data model -/

/-- One entry of the `sources` list handed to `renew_dashboards`; the
Python code reads only its `"source-name"` key (line 410). -/
structure Source : Type where
  sourceName : String
deriving DecidableEq

/-- The dashboard record travelling on the relation (the dict built at
source lines 201-210 and read at lines 316-397). -/
structure Record : Type where
  monitoring_identifier : String
  monitoring_target : String
  monitoring_query : String
  template : String
  removed : Bool
  invalidated : Bool
  invalidated_reason : String
  uuid : String
deriving DecidableEq

/-- `data.pop("uuid", None)` (line 316): the nonce is stripped before any
further processing.  Dropping the key is modelled by blanking the field;
every stored or compared record has passed through `strip`, so equality
of stripped records coincides with Python dict equality. -/
def strip (d : Record) : Record := { d with uuid := "" }

/-- The `msg` dict stored per relation id in `_stored.dashboards`
(lines 378-382): target identifier, the compressed+encoded render result,
and the (stripped) source record. -/
structure Artifact : Type where
  target : String
  dashboard : String
  data : Record
deriving DecidableEq

/-- `GrafanaDashboardProvider._stored`. -/
structure ProviderState : Type where
  dashboards : List (Nat × Artifact)
  invalid_dashboards : List (Nat × Record)
  active_sources : List Source
deriving DecidableEq

/-- Python exceptions that can escape the embedded code paths. -/
inductive PyErr : Type
  | keyError
  | typeError
  | decodeError
deriving DecidableEq

/-- One `rel.data[app]["event"]` feedback document `{errors, valid}`. -/
structure Feedback : Type where
  errors : String
  valid : Bool
deriving DecidableEq

/-- Externally observable effects of a provider operation:
how many times `dashboards_changed` was emitted, and the feedback
documents written, keyed by relation id, in write order. -/
structure Output : Type where
  changed : Nat
  feedback : List (Nat × Feedback)
deriving DecidableEq

def Output.empty : Output := ⟨0, []⟩

def Output.append (a b : Output) : Output := ⟨a.changed + b.changed, a.feedback ++ b.feedback⟩

/-- Result of a provider operation: final stored state, effects, and the
uncaught exception if one was raised (effects performed before the raise
are retained, as Python mutates in place). -/
structure PResult : Type where
  st : ProviderState
  out : Output
  err : Option PyErr
deriving DecidableEq

def msgNoSources : String := "Cannot add Grafana dashboard. No configured datasources"

def msgNoMatch : String := "Cannot find a Grafana datasource matching the dashboard"

def msgBadTemplate : String := "Cannot add Grafana dashboard. Template is not valid Jinja"

def msgWaiting : String := "Waiting for a prometheus_scrape relation to send dashboard data"

/-! ## Provider-side Reconciler -/

/-- `GrafanaDashboardProvider._purge_dead_dashboard` (lines 481-484):
`if self._stored.dashboards.pop(rel_id, None): emit dashboards_changed`.
A stored artifact dict is never empty, hence never falsy. -/
def purge_dead_dashboard (rid : Nat) (st : ProviderState) : ProviderState × Output :=
  match dictPop rid st.dashboards with
  | (some _, rest) => ({ st with dashboards := rest }, ⟨1, []⟩)
  | (none, _) => (st, Output.empty)

/-- `GrafanaDashboardProvider._find_grafana_datasource` (lines 399-424):
first `active_sources` entry whose `source-name` contains the record's
`monitoring_identifier` as a substring. -/
def findDatasource (sources : List Source) (ident : String) : Option String :=
  match sources.filter (fun x => strContains x.sourceName ident) with
  | [] => none
  | x :: _ => some x.sourceName

/-- The side-effecting wrapper around `findDatasource`: on `IndexError`
the record is stored as invalid, any active artifact purged, and error
feedback written (lines 415-423). -/
def find_grafana_datasource (d : Record) (rid : Nat) (st : ProviderState) :
    Option String × ProviderState × Output :=
  match findDatasource st.active_sources d.monitoring_identifier with
  | some name => (some name, st, Output.empty)
  | none =>
    let st1 := { st with invalid_dashboards := dictInsert rid d st.invalid_dashboards }
    let p := purge_dead_dashboard rid st1
    (none, p.1, Output.append p.2 ⟨0, [(rid, ⟨msgNoMatch, false⟩)]⟩)

/-- `GrafanaDashboardProvider._validate_dashboard_data` (lines 343-397).
The `if not grafana_datasource: return` guard (line 350) is a Python
*truthiness* test on the returned string: it returns silently both when
no datasource matched (`None` — `_find_grafana_datasource` has already
recorded the invalid state and written feedback) and when the matched
source name is the empty string (falsy), in which case nothing at all
happens.  Only `TemplateSyntaxError` is caught around template
construction (line 363); a failing `b64decode`/`decompress`/`decode`
raises (`PyErr.decodeError`). -/
def validate_dashboard_data (d : Record) (rid : Nat) (st : ProviderState) : PResult :=
  match find_grafana_datasource d rid st with
  | (none, st1, o) => ⟨st1, o, none⟩
  | (some ds, st1, o) =>
    if ds = "" then ⟨st1, o, none⟩
    else
    match decodeStr d.template with
    | none => ⟨st1, o, some PyErr.decodeError⟩
    | some tsrc =>
      match parseT tsrc.data with
      | none =>
        let p := purge_dead_dashboard rid st1
        ⟨p.1, Output.append o (Output.append p.2 ⟨0, [(rid, ⟨msgBadTemplate, false⟩)]⟩), none⟩
      | some items =>
        let rendered := String.mk (renderT ds d.monitoring_target d.monitoring_query items)
        let msg : Artifact := ⟨d.monitoring_identifier, encodeStr rendered, d⟩
        let pr := dictPop rid st1.invalid_dashboards
        let st2 := { st1 with invalid_dashboards := pr.2 }
        let o1 : Output :=
          match pr.1 with
          | some _ => ⟨0, [(rid, ⟨"", true⟩)]⟩
          | none => Output.empty
        let same : Bool :=
          match dictLookup rid st2.dashboards with
          | some art => art.data == msg.data
          | none => false
        if same then ⟨st2, Output.append o o1, none⟩
        else
          ⟨{ st2 with dashboards := dictInsert rid msg st2.dashboards },
            Output.append o (Output.append o1 ⟨1, []⟩), none⟩

/-- `GrafanaDashboardProvider._on_grafana_dashboard_relation_changed`
(lines 289-341).  `payload = none` models an absent/empty `"dashboards"`
value (`if not data: return`).  In the `removed` branch the source calls
`self._stored.dashboards.pop(rel.id)` with no default (line 320), which
raises `KeyError` when the link holds no active artifact. -/
def on_relation_changed (leader : Bool) (rid : Nat) (payload : Option Record)
    (st : ProviderState) : PResult :=
  if !leader then ⟨st, Output.empty, none⟩
  else
    match payload with
    | none => ⟨st, Output.empty, none⟩
    | some d0 =>
      let d := strip d0
      if d.removed then
        match dictLookup rid st.dashboards with
        | some _ => ⟨{ st with dashboards := (dictPop rid st.dashboards).2 }, Output.empty, none⟩
        | none => ⟨st, Output.empty, some PyErr.keyError⟩
      else if d.invalidated then
        let st1 := { st with invalid_dashboards := dictInsert rid d st.invalid_dashboards }
        let p := purge_dead_dashboard rid st1
        ⟨p.1, Output.append p.2 ⟨0, [(rid, ⟨d.invalidated_reason, false⟩)]⟩, none⟩
      else if st.active_sources.isEmpty then
        let st1 := { st with invalid_dashboards := dictInsert rid d st.invalid_dashboards }
        let p := purge_dead_dashboard rid st1
        ⟨p.1, Output.append p.2 ⟨0, [(rid, ⟨msgNoSources, false⟩)]⟩, none⟩
      else validate_dashboard_data d rid st

/-- Sequential `_validate_dashboard_data` calls over a snapshot, as the
`renew_dashboards` loops perform; an uncaught exception aborts the sweep
keeping the effects performed so far. -/
def sweep (entries : List (Nat × Record)) (st : ProviderState) : PResult :=
  match entries with
  | [] => ⟨st, Output.empty, none⟩
  | (rid, d) :: rest =>
    let r := validate_dashboard_data d rid st
    match r.err with
    | some e => ⟨r.st, r.out, some e⟩
    | none =>
      let r2 := sweep rest r.st
      ⟨r2.st, Output.append r.out r2.out, r2.err⟩

/-- `GrafanaDashboardProvider.renew_dashboards` (lines 444-463): replace
`active_sources`, then re-validate every invalid dashboard and every
active dashboard (via its stored record snapshot), iterating over copies
of the two stores taken up front. -/
def renew_dashboards (sources : List Source) (st : ProviderState) : PResult :=
  let st0 := { st with active_sources := sources }
  let inv := st0.invalid_dashboards
  let act := st0.dashboards.map (fun p => (p.1, p.2.data))
  let r1 := sweep inv st0
  match r1.err with
  | some e => ⟨r1.st, r1.out, some e⟩
  | none =>
    let r2 := sweep act r1.st
    ⟨r2.st, Output.append r1.out r2.out, r2.err⟩

/-- `GrafanaDashboardProvider._on_grafana_dashboard_relation_broken`
(lines 465-479): `pop(rel_id, None)` (which cannot raise `KeyError`, so
the `except` is dead code) followed by an unconditional emit. -/
def on_relation_broken (leader : Bool) (rid : Nat) (st : ProviderState) : PResult :=
  if !leader then ⟨st, Output.empty, none⟩
  else ⟨{ st with dashboards := (dictPop rid st.dashboards).2 }, ⟨1, []⟩, none⟩

/-! ## Consumer-side Submitter -/

/-- `GrafanaDashboardConsumer._stored.dashboards`. -/
structure ConsumerState : Type where
  dashboards : List (Nat × Record)
deriving DecidableEq

/-- Effects of a consumer operation: `dashboard_status_changed` emissions
(as `(error_message, valid)` pairs) and writes of the record into
`rel.data[app]["dashboards"]`, keyed by relation id. -/
structure ConsumerOut : Type where
  statusEvents : List Feedback
  slotWrites : List (Nat × Record)
deriving DecidableEq

def ConsumerOut.empty : ConsumerOut := ⟨[], []⟩

structure CResult : Type where
  st : ConsumerState
  out : ConsumerOut
  err : Option PyErr
deriving DecidableEq

/-- Identity/environment strings `_update_dashboards` reads from the
prometheus unit's backend and the charm's own model (lines 181-197). -/
structure ConsumerIds : Type where
  promModelName : String
  promModelUuid : String
  promAppName : String
  appName : String
  modelName : String
  modelUuid : String
deriving DecidableEq

/-- Python `str.capitalize()`: first character upper-cased, rest lowered. -/
def pyCapitalize (s : String) : String :=
  match s.data with
  | [] => s
  | c :: rest => String.mk (c.toUpper :: rest.map Char.toLower)

/-- `GrafanaDashboardConsumer._update_dashboards` (lines 174-214).
`freshUuid` stands for the `uuid.uuid4()` nonce drawn at line 209. -/
def update_dashboards (leader : Bool) (ids : ConsumerIds) (freshUuid : String)
    (data : String) (relId : Nat) (st : ConsumerState) : CResult :=
  if !leader then ⟨st, ConsumerOut.empty, none⟩
  else
    let prom_identifier := ids.promModelName ++ "_" ++ ids.promModelUuid ++ "_" ++ ids.promAppName
    let prom_target :=
      pyCapitalize ids.appName ++ " [ " ++ ids.modelName ++ " / " ++ ids.modelUuid ++ " ]"
    let prom_query :=
      "juju_model='" ++ ids.modelName ++ "',juju_model_uuid='" ++ ids.modelUuid
        ++ "',juju_application='" ++ ids.appName ++ "'"
    let stored : Record :=
      ⟨prom_identifier, prom_target, prom_query, encodeStr data, false, false, "", freshUuid⟩
    ⟨⟨dictInsert relId stored st.dashboards⟩, ⟨[], [(relId, stored)]⟩, none⟩

/-- `GrafanaDashboardConsumer.add_dashboard` (lines 124-146).
`promUnits` is the unit count of the `"monitoring"` relation: `none` means
no such relation (`prom_rel.units` raises `AttributeError`, caught, and a
waiting status event is emitted — before any leadership check); `some 0`
means an empty unit set, whose `set.pop()` raises `KeyError`, which the
`except (IndexError, AttributeError)` clause does not catch. -/
def add_dashboard (leader : Bool) (ids : ConsumerIds) (freshUuid : String)
    (promUnits : Option Nat) (data : String) (relId : Nat) (st : ConsumerState) : CResult :=
  match promUnits with
  | none => ⟨st, ⟨[⟨msgWaiting, false⟩], []⟩, none⟩
  | some 0 => ⟨st, ConsumerOut.empty, some PyErr.keyError⟩
  | some (_ + 1) => update_dashboards leader ids freshUuid data relId st

/-- `GrafanaDashboardConsumer.remove_dashboard` (lines 216-228).
`self._stored.dashboards[rel.id]` raises `KeyError` when no record is
stored; otherwise `self._stored.dashboards[rel.id].pop()` calls the inner
dict's `pop` with no arguments, which always raises
`TypeError: pop expected at least 1 argument` — the retraction never
reaches the `removed = True` write. -/
def remove_dashboard (leader : Bool) (relId : Nat) (st : ConsumerState) : CResult :=
  if !leader then ⟨st, ConsumerOut.empty, none⟩
  else
    match dictLookup relId st.dashboards with
    | none => ⟨st, ConsumerOut.empty, some PyErr.keyError⟩
    | some _ => ⟨st, ConsumerOut.empty, some PyErr.typeError⟩

/-- Concrete scenario from the spec (§8): the template, record, and
resource set of the first-record scenario. -/
def scenarioTemplate : String :=
  String.mk ([lbrace, lbrace] ++ " grafana_datasource ".data ++ [rbrace, rbrace])

def scenarioRecord : Record :=
  ⟨"model-abc_uuid1_appX", "Target", "Query", encodeStr scenarioTemplate,
    false, false, "", "nonce-1"⟩

def scenarioSources : List Source := [⟨"model-abc_uuid1_appX [grafana]"⟩]

def scenarioState : ProviderState := ⟨[], [], scenarioSources⟩

/-- A stored artifact used to exercise retraction from the `active` state. -/
def scenarioArtifact : Artifact := ⟨"model-abc_uuid1_appX", "blob", scenarioRecord⟩

/-- Concrete consumer-side identity strings. -/
def scenarioIds : ConsumerIds := ⟨"mname", "muuid", "papp", "app", "model", "uuid-1"⟩

/-- A record whose target identifier is `ident` but whose template blob is
not decodable.  Such records reach the invalid store, because the handler
paths that store invalid records (invalidated, no sources, no match) never
decode the blob, and relation data is arbitrary wire input. -/
def badBlobRecord (ident : String) : Record :=
  ⟨ident, "t", "q", "!!!", false, false, "", ""⟩

/-! # Theorems -/

/-! ## Association-list lemmas -/

theorem dictLookup_insert_self {α : Type} (k : Nat) (v : α) (l : List (Nat × α)) :
    dictLookup k (dictInsert k v l) = some v := by
  induction l with
  | nil => simp [dictInsert, dictLookup]
  | cons p rest ih =>
    by_cases h : k = p.1
    · simp [dictInsert, dictLookup, h]
    · simp [dictInsert, dictLookup, h, ih]

theorem dictLookup_insert_ne {α : Type} {k k' : Nat} (v : α) (l : List (Nat × α))
    (h : k ≠ k') : dictLookup k (dictInsert k' v l) = dictLookup k l := by
  induction l with
  | nil => simp [dictInsert, dictLookup, h]
  | cons p rest ih =>
    by_cases h2 : k' = p.1
    · subst h2
      simp [dictInsert, dictLookup, h, ih]
    · by_cases h3 : k = p.1
      · simp [dictInsert, dictLookup, h2, h3]
      · simp [dictInsert, dictLookup, h2, h3, ih]

theorem dictPop_fst {α : Type} (k : Nat) (l : List (Nat × α)) :
    (dictPop k l).1 = dictLookup k l := by
  induction l with
  | nil => simp [dictPop, dictLookup]
  | cons p rest ih =>
    by_cases h : k = p.1
    · simp [dictPop, dictLookup, h]
    · simp [dictPop, dictLookup, h, ih]

theorem dictLookup_pop_self {α : Type} (k : Nat) (l : List (Nat × α)) :
    dictLookup k (dictPop k l).2 = none := by
  induction l with
  | nil => simp [dictPop, dictLookup]
  | cons p rest ih =>
    by_cases h : k = p.1
    · simpa [dictPop, dictLookup, h] using ih
    · simp [dictPop, dictLookup, h, ih]

theorem dictLookup_pop_ne {α : Type} {k k' : Nat} (l : List (Nat × α)) (h : k ≠ k') :
    dictLookup k (dictPop k' l).2 = dictLookup k l := by
  induction l with
  | nil => simp [dictPop, dictLookup]
  | cons p rest ih =>
    obtain ⟨pk, pv⟩ := p
    by_cases h2 : k' = pk
    · subst h2
      simp [dictPop, dictLookup, h, ih]
    · by_cases h3 : k = pk
      · simp [dictPop, dictLookup, h2, h3]
      · simp [dictPop, dictLookup, h2, h3, ih]

theorem dictLookup_eq_none_forall {α : Type} {k : Nat} {l : List (Nat × α)}
    (h : dictLookup k l = none) : ∀ p ∈ l, p.1 ≠ k := by
  induction l with
  | nil => simp
  | cons p rest ih =>
    by_cases h2 : k = p.1
    · simp [dictLookup, h2] at h
    · intro q hq
      rcases List.mem_cons.mp hq with h4 | h4
      · subst h4
        exact fun hk => h2 hk.symm
      · exact ih (by simpa [dictLookup, h2] using h) q h4

/-! ## Codec round-trip (base64) -/

theorem dec_encB64 : ∀ n < 64, decB64 (encB64 n) = some n := by decide

theorem encB64_ne_pad : ∀ n < 64, ¬(encB64 n = '=') := by decide

theorem b64_roundtrip :
    ∀ bs : List Nat, (∀ b ∈ bs, b < 256) → b64DecodeBytes (b64EncodeBytes bs) = some bs := by
  intro bs
  induction bs using b64EncodeBytes.induct with
  | case1 => intro _; rfl
  | case2 a =>
    intro h
    have ha : a < 256 := h a (by simp)
    simp only [b64EncodeBytes, b64DecodeBytes,
      dec_encB64 (a / 4) (by omega), dec_encB64 (a % 4 * 16) (by omega), Option.some_bind]
    simp only [if_pos rfl, and_true, List.cons.injEq, Option.some.injEq]
    simp only [eq_self_iff_true, if_true, Option.some.injEq, List.cons.injEq, and_true]
    omega
  | case3 a b =>
    intro h
    have ha : a < 256 := h a (by simp)
    have hb : b < 256 := h b (by simp)
    simp only [b64EncodeBytes, b64DecodeBytes,
      dec_encB64 (a / 4) (by omega), dec_encB64 (a % 4 * 16 + b / 16) (by omega),
      dec_encB64 (b % 16 * 4) (by omega), Option.some_bind,
      if_neg (encB64_ne_pad (b % 16 * 4) (by omega))]
    simp only [eq_self_iff_true, if_true, Option.some.injEq, List.cons.injEq, and_true]
    omega
  | case4 a b c rest ih =>
    intro h
    have ha : a < 256 := h a (by simp)
    have hb : b < 256 := h b (by simp)
    have hc : c < 256 := h c (by simp)
    have hrest : ∀ x ∈ rest, x < 256 := fun x hx => h x (by simp [hx])
    simp only [b64EncodeBytes, b64DecodeBytes,
      dec_encB64 (a / 4) (by omega), dec_encB64 (a % 4 * 16 + b / 16) (by omega),
      dec_encB64 (b % 16 * 4 + c / 64) (by omega), dec_encB64 (c % 64) (by omega),
      Option.some_bind,
      if_neg (encB64_ne_pad (b % 16 * 4 + c / 64) (by omega)),
      if_neg (encB64_ne_pad (c % 64) (by omega)),
      ih hrest, Option.map_some', Option.some.injEq, List.cons.injEq]
    exact ⟨by omega, by omega, by omega, trivial⟩

/-! ## Codec round-trip (run-length stage, modelled from the spec) -/

theorem compress_nil : compress [] = [] := by
  rw [compress]

theorem compress_cons (b : Nat) (rest : List Nat) :
    compress (b :: rest) =
      (min (runLen b rest) 254 + 1) :: b :: compress (rest.drop (min (runLen b rest) 254)) := by
  rw [compress]

theorem replicate_append_drop {b : Nat} :
    ∀ (k : Nat) (rest : List Nat), k ≤ runLen b rest →
      List.replicate k b ++ rest.drop k = rest := by
  intro k
  induction k with
  | zero => intro rest _; simp
  | succ k ih =>
    intro rest hk
    match rest with
    | [] => simp [runLen] at hk
    | x :: xs =>
      by_cases hx : x = b
      · subst hx
        have : k ≤ runLen x xs := by
          simp [runLen] at hk
          omega
        simpa [List.replicate_succ] using ih xs this
      · simp [runLen, hx] at hk

theorem decompress_compress_aux :
    ∀ (n : Nat) (l : List Nat), l.length ≤ n → decompress (compress l) = some l := by
  intro n
  induction n with
  | zero =>
    intro l h
    have : l = [] := List.eq_nil_of_length_eq_zero (Nat.le_zero.mp h)
    subst this
    rw [compress_nil]
    rfl
  | succ n ih =>
    intro l h
    match l with
    | [] =>
      rw [compress_nil]
      rfl
    | b :: rest =>
      rw [compress_cons]
      simp only [decompress]
      rw [if_neg (by omega)]
      rw [ih (rest.drop (min (runLen b rest) 254))
        (by simp only [List.length_drop]; simp only [List.length_cons] at h; omega)]
      simp only [Option.map_some']
      congr 1
      have hk : min (runLen b rest) 254 ≤ runLen b rest := min_le_left _ _
      calc List.replicate (min (runLen b rest) 254 + 1) b
            ++ rest.drop (min (runLen b rest) 254)
          = b :: (List.replicate (min (runLen b rest) 254) b
            ++ rest.drop (min (runLen b rest) 254)) := by simp [List.replicate_succ]
        _ = b :: rest := by rw [replicate_append_drop _ rest hk]

theorem decompress_compress (l : List Nat) : decompress (compress l) = some l :=
  decompress_compress_aux l.length l (Nat.le_refl _)

theorem compress_lt :
    ∀ l : List Nat, (∀ b ∈ l, b < 256) → ∀ x ∈ compress l, x < 256 := by
  intro l
  induction l using compress.induct with
  | case1 => simp [compress_nil]
  | case2 b rest k ih =>
    intro h x hx
    rw [compress_cons] at hx
    simp only [List.mem_cons] at hx
    rcases hx with hx | hx | hx
    · have : min (runLen b rest) 254 ≤ 254 := min_le_right _ _
      omega
    · exact hx ▸ h b (by simp)
    · exact ih (fun y hy => h y (List.mem_cons_of_mem _ (List.drop_subset _ _ hy))) x hx

/-! ## Codec round-trip (UTF-8 stage) -/

theorem char_toNat_lt (c : Char) : c.toNat < 1114112 := by
  have h := c.valid
  rcases h with h | h
  · have : c.toNat < 55296 := h
    omega
  · exact h.2

theorem utf8EncodeChar_eq (c : Char) :
    utf8EncodeChar c =
      if c.toNat < 128 then [c.toNat]
      else if c.toNat < 2048 then [192 + c.toNat / 64, 128 + c.toNat % 64]
      else if c.toNat < 65536 then
        [224 + c.toNat / 4096, 128 + c.toNat / 64 % 64, 128 + c.toNat % 64]
      else
        [240 + c.toNat / 262144, 128 + c.toNat / 4096 % 64, 128 + c.toNat / 64 % 64,
          128 + c.toNat % 64] := rfl

theorem utf8EncodeChar_lt (c : Char) : ∀ x ∈ utf8EncodeChar c, x < 256 := by
  have hv := char_toNat_lt c
  rw [utf8EncodeChar_eq]
  split_ifs <;> intro x hx <;>
    simp only [List.mem_cons, List.mem_singleton, List.not_mem_nil, or_false] at hx
  · omega
  · rcases hx with hx | hx <;> omega
  · rcases hx with hx | hx | hx <;> omega
  · rcases hx with hx | hx | hx | hx <;> omega

theorem utf8Encode_lt (l : List Char) : ∀ x ∈ utf8Encode l, x < 256 := by
  induction l with
  | nil => simp [utf8Encode]
  | cons c cs ih =>
    intro x hx
    simp only [utf8Encode, List.mem_append] at hx
    rcases hx with hx | hx
    · exact utf8EncodeChar_lt c x hx
    · exact ih x hx

theorem utf8Decode_c1 (b : Nat) (rest : List Nat) (h : b < 128) :
    utf8Decode (b :: rest) = (utf8Decode rest).map (fun cs => Char.ofNat b :: cs) := by
  conv_lhs => rw [utf8Decode]
  rw [if_pos h]

theorem utf8Decode_c2 (b b1 : Nat) (rest : List Nat)
    (h1 : 192 ≤ b) (h2 : b < 224) (h3 : 128 ≤ b1) (h4 : b1 < 192) :
    utf8Decode (b :: b1 :: rest)
      = (utf8Decode rest).map (fun cs => Char.ofNat ((b - 192) * 64 + (b1 - 128)) :: cs) := by
  conv_lhs => rw [utf8Decode]
  rw [if_neg (by omega), if_pos h2]
  rw [utf8Dec2]
  rw [if_pos (by simp only [contB, Bool.and_eq_true, decide_eq_true_eq]
        <;> exact ⟨by omega, by omega, by omega⟩)]

theorem utf8Decode_c3 (b b1 b2 : Nat) (rest : List Nat)
    (h1 : 224 ≤ b) (h2 : b < 240) (h3 : 128 ≤ b1) (h4 : b1 < 192)
    (h5 : 128 ≤ b2) (h6 : b2 < 192) :
    utf8Decode (b :: b1 :: b2 :: rest)
      = (utf8Decode rest).map
          (fun cs => Char.ofNat ((b - 224) * 4096 + (b1 - 128) * 64 + (b2 - 128)) :: cs) := by
  conv_lhs => rw [utf8Decode]
  rw [if_neg (by omega), if_neg (by omega), if_pos h2]
  rw [utf8Dec3]
  rw [if_pos (by simp only [contB, Bool.and_eq_true, decide_eq_true_eq]
        <;> exact ⟨⟨by omega, by omega⟩, by omega, by omega⟩)]

theorem utf8Decode_c4 (b b1 b2 b3 : Nat) (rest : List Nat)
    (h1 : 240 ≤ b) (h2 : b < 248) (h3 : 128 ≤ b1) (h4 : b1 < 192)
    (h5 : 128 ≤ b2) (h6 : b2 < 192) (h7 : 128 ≤ b3) (h8 : b3 < 192) :
    utf8Decode (b :: b1 :: b2 :: b3 :: rest)
      = (utf8Decode rest).map
          (fun cs =>
            Char.ofNat ((b - 240) * 262144 + (b1 - 128) * 4096 + (b2 - 128) * 64 + (b3 - 128))
              :: cs) := by
  conv_lhs => rw [utf8Decode]
  rw [if_neg (by omega), if_neg (by omega), if_neg (by omega)]
  rw [utf8Dec4]
  rw [if_pos (by simp only [contB, Bool.and_eq_true, decide_eq_true_eq]
        <;> exact ⟨by omega, ⟨by omega, by omega⟩, ⟨by omega, by omega⟩, by omega, by omega⟩)]

theorem utf8Decode_encodeChar (c : Char) (bs : List Nat) :
    utf8Decode (utf8EncodeChar c ++ bs) = (utf8Decode bs).map (fun cs => c :: cs) := by
  have hv := char_toNat_lt c
  have hofn : Char.ofNat c.toNat = c := Char.ofNat_toNat c
  rw [utf8EncodeChar_eq]
  by_cases h1 : c.toNat < 128
  · rw [if_pos h1]
    simp only [List.cons_append, List.nil_append]
    rw [utf8Decode_c1 _ _ h1, hofn]
  · rw [if_neg h1]
    by_cases h2 : c.toNat < 2048
    · rw [if_pos h2]
      simp only [List.cons_append, List.nil_append]
      rw [utf8Decode_c2 _ _ _ (by omega) (by omega) (by omega) (by omega)]
      have harg : (192 + c.toNat / 64 - 192) * 64 + (128 + c.toNat % 64 - 128) = c.toNat := by
        omega
      rw [harg, hofn]
    · rw [if_neg h2]
      by_cases h3 : c.toNat < 65536
      · rw [if_pos h3]
        simp only [List.cons_append, List.nil_append]
        rw [utf8Decode_c3 _ _ _ _ (by omega) (by omega) (by omega) (by omega) (by omega)
          (by omega)]
        have harg : (224 + c.toNat / 4096 - 224) * 4096 + (128 + c.toNat / 64 % 64 - 128) * 64
            + (128 + c.toNat % 64 - 128) = c.toNat := by
          omega
        rw [harg, hofn]
      · rw [if_neg h3]
        simp only [List.cons_append, List.nil_append]
        rw [utf8Decode_c4 _ _ _ _ _ (by omega) (by omega) (by omega) (by omega) (by omega)
          (by omega) (by omega) (by omega)]
        have harg : (240 + c.toNat / 262144 - 240) * 262144
            + (128 + c.toNat / 4096 % 64 - 128) * 4096
            + (128 + c.toNat / 64 % 64 - 128) * 64 + (128 + c.toNat % 64 - 128) = c.toNat := by
          omega
        rw [harg, hofn]

theorem utf8Decode_encode (l : List Char) : utf8Decode (utf8Encode l) = some l := by
  induction l with
  | nil =>
    show utf8Decode [] = some []
    rw [utf8Decode]
  | cons c cs ih =>
    show utf8Decode (utf8EncodeChar c ++ utf8Encode cs) = some (c :: cs)
    rw [utf8Decode_encodeChar, ih]
    rfl

/-- The round-trip of the record codec, shared by the claim theorems. -/
theorem decode_encode (s : String) : decodeStr (encodeStr s) = some s := by
  unfold encodeStr decodeStr
  have hb : ∀ x ∈ compress (utf8Encode s.data), x < 256 :=
    compress_lt _ (utf8Encode_lt s.data)
  rw [show (String.mk (b64EncodeBytes (compress (utf8Encode s.data)))).data
      = b64EncodeBytes (compress (utf8Encode s.data)) from rfl]
  rw [b64_roundtrip _ hb, Option.some_bind, decompress_compress, Option.some_bind,
    utf8Decode_encode]
  cases s
  rfl

/-! ## Reconciler state lemmas -/

theorem dictPop_eq_of_lookup_none {α : Type} {k : Nat} {l : List (Nat × α)}
    (h : dictLookup k l = none) : (dictPop k l).2 = l := by
  induction l with
  | nil => rfl
  | cons p rest ih =>
    obtain ⟨pk, pv⟩ := p
    by_cases h2 : k = pk
    · simp [dictLookup, h2] at h
    · simp only [dictLookup, if_neg h2] at h
      simp [dictPop, h2, ih h]

theorem purge_st (rid : Nat) (st : ProviderState) :
    (purge_dead_dashboard rid st).1
      = { st with dashboards := (dictPop rid st.dashboards).2 } := by
  unfold purge_dead_dashboard
  cases h : dictPop rid st.dashboards with
  | mk popped rest =>
    cases popped with
    | some a => rfl
    | none =>
      have hl : dictLookup rid st.dashboards = none := by
        rw [← dictPop_fst rid st.dashboards, h]
      have h2 : rest = st.dashboards := by
        have h3 := dictPop_eq_of_lookup_none hl
        rw [h] at h3
        exact h3
      simp only [h2]

theorem purge_feedback (rid : Nat) (st : ProviderState) :
    (purge_dead_dashboard rid st).2.feedback = [] := by
  unfold purge_dead_dashboard
  cases h : dictPop rid st.dashboards with
  | mk popped rest => cases popped <;> rfl

theorem purge_changed_le (rid : Nat) (st : ProviderState) :
    (purge_dead_dashboard rid st).2.changed ≤ 1 := by
  unfold purge_dead_dashboard
  cases h : dictPop rid st.dashboards with
  | mk popped rest => cases popped <;> simp [Output.empty]

theorem purge_changed_zero (rid : Nat) (st : ProviderState)
    (h : dictLookup rid st.dashboards = none) :
    (purge_dead_dashboard rid st).2.changed = 0 := by
  unfold purge_dead_dashboard
  rw [← dictPop_fst rid st.dashboards] at h
  cases h2 : dictPop rid st.dashboards with
  | mk popped rest =>
    rw [h2] at h
    simp only [] at h
    subst h
    rfl

theorem purge_changed_one (rid : Nat) (st : ProviderState)
    {a : Artifact} (h : dictLookup rid st.dashboards = some a) :
    (purge_dead_dashboard rid st).2.changed = 1 := by
  unfold purge_dead_dashboard
  rw [← dictPop_fst rid st.dashboards] at h
  cases h2 : dictPop rid st.dashboards with
  | mk popped rest =>
    rw [h2] at h
    simp only [] at h
    subst h
    rfl

/-- The C10 invariant: no relation id is a key of both the active store and
the invalid store. -/
def StoresDisjoint (st : ProviderState) : Prop :=
  ∀ rid : Nat, dictLookup rid st.dashboards = none
    ∨ dictLookup rid st.invalid_dashboards = none

theorem purge_out (rid : Nat) (st : ProviderState) :
    (purge_dead_dashboard rid st).2
      = ⟨if dictLookup rid st.dashboards = none then 0 else 1, []⟩ := by
  unfold purge_dead_dashboard
  rw [← dictPop_fst rid st.dashboards]
  cases h : dictPop rid st.dashboards with
  | mk popped rest =>
    cases popped with
    | some a => simp
    | none => simp [Output.empty]

theorem Output.empty_append (o : Output) : Output.append Output.empty o = o := by
  cases o
  simp [Output.append, Output.empty]

/-! Projection lemmas for `strip`. -/

@[simp] theorem strip_removed (d : Record) : (strip d).removed = d.removed := rfl

@[simp] theorem strip_invalidated (d : Record) : (strip d).invalidated = d.invalidated := rfl

@[simp] theorem strip_reason (d : Record) :
    (strip d).invalidated_reason = d.invalidated_reason := rfl

@[simp] theorem strip_ident (d : Record) :
    (strip d).monitoring_identifier = d.monitoring_identifier := rfl

@[simp] theorem strip_target (d : Record) :
    (strip d).monitoring_target = d.monitoring_target := rfl

@[simp] theorem strip_query (d : Record) :
    (strip d).monitoring_query = d.monitoring_query := rfl

@[simp] theorem strip_template (d : Record) : (strip d).template = d.template := rfl

/-! ## Branch equations for `_validate_dashboard_data` -/

theorem validate_eq_noMatch (d : Record) (rid : Nat) (st : ProviderState)
    (h : findDatasource st.active_sources d.monitoring_identifier = none) :
    validate_dashboard_data d rid st =
      ⟨⟨(dictPop rid st.dashboards).2, dictInsert rid d st.invalid_dashboards,
          st.active_sources⟩,
        ⟨if dictLookup rid st.dashboards = none then 0 else 1,
          [(rid, ⟨msgNoMatch, false⟩)]⟩, none⟩ := by
  simp only [validate_dashboard_data, find_grafana_datasource, h, purge_st, purge_out,
    Output.append]
  simp

theorem validate_eq_emptyDs (d : Record) (rid : Nat) (st : ProviderState)
    (hf : findDatasource st.active_sources d.monitoring_identifier = some "") :
    validate_dashboard_data d rid st = ⟨st, Output.empty, none⟩ := by
  simp only [validate_dashboard_data, find_grafana_datasource, hf, eq_self_iff_true,
    if_true]

theorem validate_eq_decodeErr (d : Record) (rid : Nat) (st : ProviderState) (ds : String)
    (hne : ¬(ds = ""))
    (hf : findDatasource st.active_sources d.monitoring_identifier = some ds)
    (hd : decodeStr d.template = none) :
    validate_dashboard_data d rid st = ⟨st, Output.empty, some PyErr.decodeError⟩ := by
  simp only [validate_dashboard_data, find_grafana_datasource, hf, if_neg hne, hd]

theorem validate_eq_syntaxErr (d : Record) (rid : Nat) (st : ProviderState)
    (ds tsrc : String) (hne : ¬(ds = ""))
    (hf : findDatasource st.active_sources d.monitoring_identifier = some ds)
    (hd : decodeStr d.template = some tsrc)
    (hp : parseT tsrc.data = none) :
    validate_dashboard_data d rid st =
      ⟨⟨(dictPop rid st.dashboards).2, st.invalid_dashboards, st.active_sources⟩,
        ⟨if dictLookup rid st.dashboards = none then 0 else 1,
          [(rid, ⟨msgBadTemplate, false⟩)]⟩, none⟩ := by
  simp only [validate_dashboard_data, find_grafana_datasource, hf, if_neg hne, hd, hp,
    purge_st, purge_out, Output.append]
  simp [Output.empty]

theorem validate_eq_success_same (d : Record) (rid : Nat) (st : ProviderState)
    (ds tsrc : String) (items : List TItem) (a : Artifact) (hne : ¬(ds = ""))
    (hf : findDatasource st.active_sources d.monitoring_identifier = some ds)
    (hd : decodeStr d.template = some tsrc)
    (hp : parseT tsrc.data = some items)
    (ha : dictLookup rid st.dashboards = some a)
    (hsame : a.data = d) :
    validate_dashboard_data d rid st =
      ⟨⟨st.dashboards, (dictPop rid st.invalid_dashboards).2, st.active_sources⟩,
        ⟨0, if (dictPop rid st.invalid_dashboards).1 = none then []
            else [(rid, ⟨"", true⟩)]⟩, none⟩ := by
  simp only [validate_dashboard_data, find_grafana_datasource, hf, if_neg hne, hd, hp, ha,
    hsame]
  cases hpr : (dictPop rid st.invalid_dashboards).1 with
  | none => simp [Output.append, Output.empty]
  | some v => simp [Output.append, Output.empty]

theorem validate_eq_success_store (d : Record) (rid : Nat) (st : ProviderState)
    (ds tsrc : String) (items : List TItem) (hne : ¬(ds = ""))
    (hf : findDatasource st.active_sources d.monitoring_identifier = some ds)
    (hd : decodeStr d.template = some tsrc)
    (hp : parseT tsrc.data = some items)
    (hdiff : ∀ a : Artifact, dictLookup rid st.dashboards = some a → ¬(a.data = d)) :
    validate_dashboard_data d rid st =
      ⟨⟨dictInsert rid
            ⟨d.monitoring_identifier,
              encodeStr (String.mk (renderT ds d.monitoring_target d.monitoring_query items)),
              d⟩ st.dashboards,
          (dictPop rid st.invalid_dashboards).2, st.active_sources⟩,
        ⟨1, if (dictPop rid st.invalid_dashboards).1 = none then []
            else [(rid, ⟨"", true⟩)]⟩, none⟩ := by
  have hsame : (match dictLookup rid st.dashboards with
      | some art => art.data == d
      | none => false) = false := by
    cases ha : dictLookup rid st.dashboards with
    | none => rfl
    | some a => simpa using hdiff a ha
  simp only [validate_dashboard_data, find_grafana_datasource, hf, if_neg hne, hd, hp,
    hsame]
  cases hpr : (dictPop rid st.invalid_dashboards).1 with
  | none => simp [Output.append, Output.empty]
  | some v => simp [Output.append, Output.empty]

/-! ## Branch equations for the relation-changed handler -/

theorem changed_eq_notLeader (rid : Nat) (payload : Option Record) (st : ProviderState) :
    on_relation_changed false rid payload st = ⟨st, Output.empty, none⟩ := rfl

theorem changed_eq_noPayload (rid : Nat) (st : ProviderState) :
    on_relation_changed true rid none st = ⟨st, Output.empty, none⟩ := rfl

theorem changed_eq_removed_some (rid : Nat) (d0 : Record) (st : ProviderState)
    (a : Artifact) (hrem : d0.removed = true) (ha : dictLookup rid st.dashboards = some a) :
    on_relation_changed true rid (some d0) st =
      ⟨{ st with dashboards := (dictPop rid st.dashboards).2 }, Output.empty, none⟩ := by
  simp only [on_relation_changed, Bool.not_true, Bool.false_eq_true, if_false,
    strip_removed, hrem, if_true, ha]

theorem changed_eq_removed_none (rid : Nat) (d0 : Record) (st : ProviderState)
    (hrem : d0.removed = true) (ha : dictLookup rid st.dashboards = none) :
    on_relation_changed true rid (some d0) st = ⟨st, Output.empty, some PyErr.keyError⟩ := by
  simp only [on_relation_changed, Bool.not_true, Bool.false_eq_true, if_false,
    strip_removed, hrem, if_true, ha]

theorem changed_eq_invalidated (rid : Nat) (d0 : Record) (st : ProviderState)
    (hrem : d0.removed = false) (hinv : d0.invalidated = true) :
    on_relation_changed true rid (some d0) st =
      ⟨⟨(dictPop rid st.dashboards).2, dictInsert rid (strip d0) st.invalid_dashboards,
          st.active_sources⟩,
        ⟨if dictLookup rid st.dashboards = none then 0 else 1,
          [(rid, ⟨d0.invalidated_reason, false⟩)]⟩, none⟩ := by
  simp only [on_relation_changed, Bool.not_true, Bool.false_eq_true, if_false,
    strip_removed, hrem, strip_invalidated, hinv, if_true, purge_st, purge_out,
    Output.append, strip_reason]
  simp

theorem changed_eq_noSources (rid : Nat) (d0 : Record) (st : ProviderState)
    (hrem : d0.removed = false) (hinv : d0.invalidated = false)
    (hsrc : st.active_sources.isEmpty = true) :
    on_relation_changed true rid (some d0) st =
      ⟨⟨(dictPop rid st.dashboards).2, dictInsert rid (strip d0) st.invalid_dashboards,
          st.active_sources⟩,
        ⟨if dictLookup rid st.dashboards = none then 0 else 1,
          [(rid, ⟨msgNoSources, false⟩)]⟩, none⟩ := by
  simp only [on_relation_changed, Bool.not_true, Bool.false_eq_true, if_false,
    strip_removed, hrem, strip_invalidated, hinv, hsrc, if_true, purge_st, purge_out,
    Output.append]
  simp

theorem changed_eq_validate (rid : Nat) (d0 : Record) (st : ProviderState)
    (hrem : d0.removed = false) (hinv : d0.invalidated = false)
    (hsrc : st.active_sources.isEmpty = false) :
    on_relation_changed true rid (some d0) st = validate_dashboard_data (strip d0) rid st := by
  simp only [on_relation_changed, Bool.not_true, Bool.false_eq_true, if_false,
    strip_removed, hrem, strip_invalidated, hinv, hsrc]

/-! ## The store-disjointness invariant is preserved (C10) -/

theorem validate_disjoint (d : Record) (rid : Nat) (st : ProviderState)
    (h : StoresDisjoint st) : StoresDisjoint (validate_dashboard_data d rid st).st := by
  cases hf : findDatasource st.active_sources d.monitoring_identifier with
  | none =>
    rw [validate_eq_noMatch d rid st hf]
    intro r
    by_cases hr : r = rid
    · subst hr
      exact Or.inl (dictLookup_pop_self _ _)
    · simp only []
      rw [dictLookup_pop_ne _ hr, dictLookup_insert_ne _ _ hr]
      exact h r
  | some ds =>
    by_cases hds : ds = ""
    · subst hds
      rw [validate_eq_emptyDs d rid st hf]
      exact h
    cases hd : decodeStr d.template with
    | none =>
      rw [validate_eq_decodeErr d rid st ds hds hf hd]
      exact h
    | some tsrc =>
      cases hp : parseT tsrc.data with
      | none =>
        rw [validate_eq_syntaxErr d rid st ds tsrc hds hf hd hp]
        intro r
        by_cases hr : r = rid
        · subst hr
          exact Or.inl (dictLookup_pop_self _ _)
        · simp only []
          rw [dictLookup_pop_ne _ hr]
          exact h r
      | some items =>
        by_cases hsame : ∃ a : Artifact, dictLookup rid st.dashboards = some a ∧ a.data = d
        · obtain ⟨a, ha, had⟩ := hsame
          rw [validate_eq_success_same d rid st ds tsrc items a hds hf hd hp ha had]
          intro r
          by_cases hr : r = rid
          · subst hr
            exact Or.inr (dictLookup_pop_self _ _)
          · simp only []
            rw [dictLookup_pop_ne _ hr]
            exact h r
        · have hdiff : ∀ a : Artifact, dictLookup rid st.dashboards = some a → ¬(a.data = d) :=
            fun a ha had => hsame ⟨a, ha, had⟩
          rw [validate_eq_success_store d rid st ds tsrc items hds hf hd hp hdiff]
          intro r
          by_cases hr : r = rid
          · subst hr
            exact Or.inr (dictLookup_pop_self _ _)
          · simp only []
            rw [dictLookup_pop_ne _ hr, dictLookup_insert_ne _ _ hr]
            exact h r

theorem sweep_nil (st : ProviderState) : sweep [] st = ⟨st, Output.empty, none⟩ := rfl

theorem sweep_cons_err (rid : Nat) (d : Record) (rest : List (Nat × Record))
    (st : ProviderState) (e : PyErr)
    (h : (validate_dashboard_data d rid st).err = some e) :
    sweep ((rid, d) :: rest) st
      = ⟨(validate_dashboard_data d rid st).st, (validate_dashboard_data d rid st).out,
          some e⟩ := by
  simp only [sweep, h]

theorem sweep_cons_ok (rid : Nat) (d : Record) (rest : List (Nat × Record))
    (st : ProviderState)
    (h : (validate_dashboard_data d rid st).err = none) :
    sweep ((rid, d) :: rest) st
      = ⟨(sweep rest (validate_dashboard_data d rid st).st).st,
          Output.append (validate_dashboard_data d rid st).out
            (sweep rest (validate_dashboard_data d rid st).st).out,
          (sweep rest (validate_dashboard_data d rid st).st).err⟩ := by
  simp only [sweep, h]

theorem sweep_disjoint (entries : List (Nat × Record)) (st : ProviderState)
    (h : StoresDisjoint st) : StoresDisjoint (sweep entries st).st := by
  induction entries generalizing st with
  | nil => exact h
  | cons p rest ih =>
    obtain ⟨rid, d⟩ := p
    cases he : (validate_dashboard_data d rid st).err with
    | some e =>
      rw [sweep_cons_err rid d rest st e he]
      exact validate_disjoint d rid st h
    | none =>
      rw [sweep_cons_ok rid d rest st he]
      exact ih _ (validate_disjoint d rid st h)

theorem relation_changed_disjoint (leader : Bool) (rid : Nat) (payload : Option Record)
    (st : ProviderState) (h : StoresDisjoint st) :
    StoresDisjoint (on_relation_changed leader rid payload st).st := by
  cases leader with
  | false =>
    rw [changed_eq_notLeader]
    exact h
  | true =>
    cases payload with
    | none =>
      rw [changed_eq_noPayload]
      exact h
    | some d0 =>
      by_cases hrem : d0.removed = true
      · cases ha : dictLookup rid st.dashboards with
        | some a =>
          rw [changed_eq_removed_some rid d0 st a hrem ha]
          intro r
          by_cases hr : r = rid
          · subst hr
            exact Or.inl (dictLookup_pop_self _ _)
          · simp only []
            rw [dictLookup_pop_ne _ hr]
            exact h r
        | none =>
          rw [changed_eq_removed_none rid d0 st hrem ha]
          exact h
      · have hrem2 : d0.removed = false := by
          cases hx : d0.removed
          · rfl
          · exact absurd hx hrem
        by_cases hinv : d0.invalidated = true
        · rw [changed_eq_invalidated rid d0 st hrem2 hinv]
          intro r
          by_cases hr : r = rid
          · subst hr
            exact Or.inl (dictLookup_pop_self _ _)
          · simp only []
            rw [dictLookup_pop_ne _ hr, dictLookup_insert_ne _ _ hr]
            exact h r
        · have hinv2 : d0.invalidated = false := by
            cases hx : d0.invalidated
            · rfl
            · exact absurd hx hinv
          by_cases hsrc : st.active_sources.isEmpty = true
          · rw [changed_eq_noSources rid d0 st hrem2 hinv2 hsrc]
            intro r
            by_cases hr : r = rid
            · subst hr
              exact Or.inl (dictLookup_pop_self _ _)
            · simp only []
              rw [dictLookup_pop_ne _ hr, dictLookup_insert_ne _ _ hr]
              exact h r
          · have hsrc2 : st.active_sources.isEmpty = false := by
              cases hx : st.active_sources.isEmpty
              · rfl
              · exact absurd hx hsrc
            rw [changed_eq_validate rid d0 st hrem2 hinv2 hsrc2]
            exact validate_disjoint _ rid st h

theorem renew_eq_err (sources : List Source) (st : ProviderState) (e : PyErr)
    (h : (sweep st.invalid_dashboards { st with active_sources := sources }).err = some e) :
    renew_dashboards sources st
      = ⟨(sweep st.invalid_dashboards { st with active_sources := sources }).st,
          (sweep st.invalid_dashboards { st with active_sources := sources }).out,
          some e⟩ := by
  simp only [renew_dashboards, h]

theorem renew_eq_ok (sources : List Source) (st : ProviderState)
    (h : (sweep st.invalid_dashboards { st with active_sources := sources }).err = none) :
    renew_dashboards sources st
      = ⟨(sweep (st.dashboards.map (fun p => (p.1, p.2.data)))
            (sweep st.invalid_dashboards { st with active_sources := sources }).st).st,
          Output.append (sweep st.invalid_dashboards { st with active_sources := sources }).out
            (sweep (st.dashboards.map (fun p => (p.1, p.2.data)))
              (sweep st.invalid_dashboards { st with active_sources := sources }).st).out,
          (sweep (st.dashboards.map (fun p => (p.1, p.2.data)))
            (sweep st.invalid_dashboards { st with active_sources := sources }).st).err⟩ := by
  simp only [renew_dashboards, h]

theorem renew_disjoint (sources : List Source) (st : ProviderState)
    (h : StoresDisjoint st) : StoresDisjoint (renew_dashboards sources st).st := by
  have h0 : StoresDisjoint { st with active_sources := sources } := h
  cases he : (sweep st.invalid_dashboards { st with active_sources := sources }).err with
  | some e =>
    rw [renew_eq_err sources st e he]
    exact sweep_disjoint _ _ h0
  | none =>
    rw [renew_eq_ok sources st he]
    exact sweep_disjoint _ _ (sweep_disjoint _ _ h0)

theorem broken_disjoint (leader : Bool) (rid : Nat) (st : ProviderState)
    (h : StoresDisjoint st) : StoresDisjoint (on_relation_broken leader rid st).st := by
  cases leader with
  | false => exact h
  | true =>
    show StoresDisjoint (⟨{ st with dashboards := (dictPop rid st.dashboards).2 },
      ⟨1, []⟩, none⟩ : PResult).st
    intro r
    by_cases hr : r = rid
    · subst hr
      exact Or.inl (dictLookup_pop_self _ _)
    · simp only []
      rw [dictLookup_pop_ne _ hr]
      exact h r

/-! ## Emission counting (C5) -/

theorem validate_changed_le (d : Record) (rid : Nat) (st : ProviderState) :
    (validate_dashboard_data d rid st).out.changed ≤ 1 := by
  cases hf : findDatasource st.active_sources d.monitoring_identifier with
  | none =>
    rw [validate_eq_noMatch d rid st hf]
    simp only []
    split <;> omega
  | some ds =>
    by_cases hds : ds = ""
    · subst hds
      rw [validate_eq_emptyDs d rid st hf]
      exact Nat.zero_le 1
    cases hd : decodeStr d.template with
    | none =>
      rw [validate_eq_decodeErr d rid st ds hds hf hd]
      simp [Output.empty]
    | some tsrc =>
      cases hp : parseT tsrc.data with
      | none =>
        rw [validate_eq_syntaxErr d rid st ds tsrc hds hf hd hp]
        simp only []
        split <;> omega
      | some items =>
        by_cases hsame : ∃ a : Artifact, dictLookup rid st.dashboards = some a ∧ a.data = d
        · obtain ⟨a, ha, had⟩ := hsame
          rw [validate_eq_success_same d rid st ds tsrc items a hds hf hd hp ha had]
          simp
        · have hdiff : ∀ a : Artifact, dictLookup rid st.dashboards = some a → ¬(a.data = d) :=
            fun a ha had => hsame ⟨a, ha, had⟩
          rw [validate_eq_success_store d rid st ds tsrc items hds hf hd hp hdiff]

theorem changed_changed_le (leader : Bool) (rid : Nat) (payload : Option Record)
    (st : ProviderState) : (on_relation_changed leader rid payload st).out.changed ≤ 1 := by
  cases leader with
  | false =>
    rw [changed_eq_notLeader]
    simp [Output.empty]
  | true =>
    cases payload with
    | none =>
      rw [changed_eq_noPayload]
      simp [Output.empty]
    | some d0 =>
      by_cases hrem : d0.removed = true
      · cases ha : dictLookup rid st.dashboards with
        | some a =>
          rw [changed_eq_removed_some rid d0 st a hrem ha]
          simp [Output.empty]
        | none =>
          rw [changed_eq_removed_none rid d0 st hrem ha]
          simp [Output.empty]
      · have hrem2 : d0.removed = false := Bool.eq_false_iff.mpr hrem
        by_cases hinv : d0.invalidated = true
        · rw [changed_eq_invalidated rid d0 st hrem2 hinv]
          simp only []
          split <;> omega
        · have hinv2 : d0.invalidated = false := Bool.eq_false_iff.mpr hinv
          by_cases hsrc : st.active_sources.isEmpty = true
          · rw [changed_eq_noSources rid d0 st hrem2 hinv2 hsrc]
            simp only []
            split <;> omega
          · have hsrc2 : st.active_sources.isEmpty = false := Bool.eq_false_iff.mpr hsrc
            rw [changed_eq_validate rid d0 st hrem2 hinv2 hsrc2]
            exact validate_changed_le _ rid st

theorem second_run_changed (st : ProviderState) (rid : Nat) (d0 : Record) :
    (on_relation_changed true rid (some d0)
      (on_relation_changed true rid (some d0) st).st).out.changed = 0 := by
  by_cases hrem : d0.removed = true
  · cases ha : dictLookup rid st.dashboards with
    | some a =>
      rw [changed_eq_removed_some rid d0 st a hrem ha]
      rw [changed_eq_removed_none rid d0
        ⟨(dictPop rid st.dashboards).2, st.invalid_dashboards, st.active_sources⟩ hrem
        (dictLookup_pop_self rid st.dashboards)]
      rfl
    | none =>
      rw [changed_eq_removed_none rid d0 st hrem ha]
      rw [changed_eq_removed_none rid d0 st hrem ha]
      rfl
  · have hrem2 : d0.removed = false := Bool.eq_false_iff.mpr hrem
    by_cases hinv : d0.invalidated = true
    · rw [changed_eq_invalidated rid d0 st hrem2 hinv]
      rw [changed_eq_invalidated rid d0
        ⟨(dictPop rid st.dashboards).2, dictInsert rid (strip d0) st.invalid_dashboards,
          st.active_sources⟩ hrem2 hinv]
      simp [dictLookup_pop_self]
    · have hinv2 : d0.invalidated = false := Bool.eq_false_iff.mpr hinv
      by_cases hsrc : st.active_sources.isEmpty = true
      · rw [changed_eq_noSources rid d0 st hrem2 hinv2 hsrc]
        rw [changed_eq_noSources rid d0
          ⟨(dictPop rid st.dashboards).2, dictInsert rid (strip d0) st.invalid_dashboards,
            st.active_sources⟩ hrem2 hinv2 hsrc]
        simp [dictLookup_pop_self]
      · have hsrc2 : st.active_sources.isEmpty = false := Bool.eq_false_iff.mpr hsrc
        rw [changed_eq_validate rid d0 st hrem2 hinv2 hsrc2]
        cases hf : findDatasource st.active_sources (strip d0).monitoring_identifier with
        | none =>
          rw [validate_eq_noMatch _ rid st hf]
          rw [changed_eq_validate rid d0
            ⟨(dictPop rid st.dashboards).2, dictInsert rid (strip d0) st.invalid_dashboards,
              st.active_sources⟩ hrem2 hinv2 hsrc2]
          rw [validate_eq_noMatch (strip d0) rid
            ⟨(dictPop rid st.dashboards).2, dictInsert rid (strip d0) st.invalid_dashboards,
              st.active_sources⟩ hf]
          simp [dictLookup_pop_self]
        | some ds =>
          by_cases hds : ds = ""
          · subst hds
            rw [validate_eq_emptyDs (strip d0) rid st hf]
            rw [changed_eq_validate rid d0 st hrem2 hinv2 hsrc2]
            rw [validate_eq_emptyDs (strip d0) rid st hf]
            rfl
          cases hd : decodeStr (strip d0).template with
          | none =>
            rw [validate_eq_decodeErr _ rid st ds hds hf hd]
            rw [changed_eq_validate rid d0 st hrem2 hinv2 hsrc2]
            rw [validate_eq_decodeErr _ rid st ds hds hf hd]
            rfl
          | some tsrc =>
            cases hp : parseT tsrc.data with
            | none =>
              rw [validate_eq_syntaxErr _ rid st ds tsrc hds hf hd hp]
              rw [changed_eq_validate rid d0
                ⟨(dictPop rid st.dashboards).2, st.invalid_dashboards, st.active_sources⟩
                hrem2 hinv2 hsrc2]
              rw [validate_eq_syntaxErr (strip d0) rid
                ⟨(dictPop rid st.dashboards).2, st.invalid_dashboards, st.active_sources⟩
                ds tsrc hds hf hd hp]
              simp [dictLookup_pop_self]
            | some items =>
              by_cases hsame : ∃ a : Artifact,
                  dictLookup rid st.dashboards = some a ∧ a.data = strip d0
              · obtain ⟨a, ha, had⟩ := hsame
                rw [validate_eq_success_same _ rid st ds tsrc items a hds hf hd hp ha had]
                rw [changed_eq_validate rid d0
                  ⟨st.dashboards, (dictPop rid st.invalid_dashboards).2, st.active_sources⟩
                  hrem2 hinv2 hsrc2]
                rw [validate_eq_success_same (strip d0) rid
                  ⟨st.dashboards, (dictPop rid st.invalid_dashboards).2, st.active_sources⟩
                  ds tsrc items a hds hf hd hp ha had]
              · have hdiff : ∀ a : Artifact,
                    dictLookup rid st.dashboards = some a → ¬(a.data = strip d0) :=
                  fun a ha had => hsame ⟨a, ha, had⟩
                rw [validate_eq_success_store _ rid st ds tsrc items hds hf hd hp hdiff]
                rw [changed_eq_validate rid d0
                  ⟨dictInsert rid
                      ⟨(strip d0).monitoring_identifier,
                        encodeStr (String.mk (renderT ds (strip d0).monitoring_target
                          (strip d0).monitoring_query items)),
                        strip d0⟩ st.dashboards,
                    (dictPop rid st.invalid_dashboards).2, st.active_sources⟩
                  hrem2 hinv2 hsrc2]
                rw [validate_eq_success_same (strip d0) rid
                  ⟨dictInsert rid
                      ⟨(strip d0).monitoring_identifier,
                        encodeStr (String.mk (renderT ds (strip d0).monitoring_target
                          (strip d0).monitoring_query items)),
                        strip d0⟩ st.dashboards,
                    (dictPop rid st.invalid_dashboards).2, st.active_sources⟩
                  ds tsrc items _ hds hf hd hp
                  (dictLookup_insert_self rid _ st.dashboards) rfl]

/-! ## Datasource matching helpers -/

theorem findDatasource_eq_none (sources : List Source) (ident : String)
    (h : ∀ src ∈ sources, strContains src.sourceName ident = false) :
    findDatasource sources ident = none := by
  unfold findDatasource
  have hfl : sources.filter (fun x => strContains x.sourceName ident) = [] := by
    rw [List.filter_eq_nil]
    intro a ha
    simp [h a ha]
  rw [hfl]

theorem findDatasource_isSome (sources : List Source) (ident : String)
    (h : ∃ src ∈ sources, strContains src.sourceName ident = true) :
    ∃ name : String, findDatasource sources ident = some name := by
  unfold findDatasource
  cases hfl : sources.filter (fun x => strContains x.sourceName ident) with
  | nil =>
    exfalso
    obtain ⟨src, hmem, hc⟩ := h
    have := List.filter_eq_nil.mp hfl src hmem
    simp [hc] at this
  | cons x xs => exact ⟨x.sourceName, rfl⟩

theorem findDatasource_mem (sources : List Source) (ident name : String)
    (h : findDatasource sources ident = some name) :
    ∃ src ∈ sources, src.sourceName = name := by
  unfold findDatasource at h
  cases hfl : sources.filter (fun x => strContains x.sourceName ident) with
  | nil =>
    rw [hfl] at h
    exact absurd h (by simp)
  | cons x xs =>
    rw [hfl] at h
    simp only [Option.some.injEq] at h
    exact ⟨x, List.mem_of_mem_filter (hfl.symm ▸ List.mem_cons_self x xs), h⟩

theorem filter_keys_ne {L : Nat} (l : List (Nat × Feedback)) (h : ∀ p ∈ l, p.1 ≠ L) :
    l.filter (fun p => p.1 == L) = [] := by
  induction l with
  | nil => rfl
  | cons p rest ih =>
    have hp : (p.1 == L) = false := by
      simp only [beq_eq_false_iff_ne, ne_eq]
      exact h p (by simp)
    simp only [List.filter, hp]
    exact ih (fun q hq => h q (by simp [hq]))

/-! ## Claim C6 — codec round-trip -/

/-- C6: for every string `s` (Lean strings are exactly the valid Unicode
scalar sequences), decoding the encoded form returns `s` exactly:
`decode(encode(s)) = s`, where `encode` compresses then base64-encodes and
`decode` base64-decodes then decompresses. -/
theorem C6_codec_roundtrip (s : String) : decodeStr (encodeStr s) = some s :=
  decode_encode s

/-! ## Claim C5 — reconciliation is idempotent on emissions -/

/-- C5: running the relation-changed reconciliation twice with the same
record and unchanged resource set produces at most one `dashboards_changed`
emission over the two runs, whichever branch (removed, invalidated, no
resources, no match, bad template, or successful render) applies; in
particular the second run never emits. -/
theorem C5_reconcile_idempotent (leader : Bool) (st : ProviderState) (rid : Nat)
    (d0 : Record) :
    (on_relation_changed leader rid (some d0) st).out.changed
      + (on_relation_changed leader rid (some d0)
          (on_relation_changed leader rid (some d0) st).st).out.changed ≤ 1 := by
  cases leader with
  | false =>
    rw [changed_eq_notLeader, changed_eq_notLeader]
    simp [Output.empty]
  | true =>
    have h1 := changed_changed_le true rid (some d0) st
    have h2 := second_run_changed st rid d0
    omega

/-! ## Claim C10 — the two stores never share a key -/

/-- C10: if no link id is simultaneously a key of both the active-dashboard
store and the invalid-dashboard store, then after any relation-changed
handling, any `renew_dashboards` sweep, or any relation teardown that
completes without an exception, the stores are still disjoint. -/
theorem C10_stores_stay_disjoint (st : ProviderState) (h : StoresDisjoint st) :
    (∀ (leader : Bool) (rid : Nat) (payload : Option Record),
      (on_relation_changed leader rid payload st).err = none →
        StoresDisjoint (on_relation_changed leader rid payload st).st) ∧
    (∀ sources : List Source,
      (renew_dashboards sources st).err = none →
        StoresDisjoint (renew_dashboards sources st).st) ∧
    (∀ (leader : Bool) (rid : Nat),
      StoresDisjoint (on_relation_broken leader rid st).st) := by
  refine ⟨fun leader rid payload _ => ?_, fun sources _ => ?_, fun leader rid => ?_⟩
  · exact relation_changed_disjoint leader rid payload st h
  · exact renew_disjoint sources st h
  · exact broken_disjoint leader rid st h

theorem C10_witness :
    StoresDisjoint ((on_relation_changed true 1 none ⟨[], [], []⟩).st) :=
  (C10_stores_stay_disjoint ⟨[], [], []⟩ (fun _ => Or.inl rfl)).1 true 1 none rfl

/-! ## Claim C2 — retraction (`removed = true`) -/

/-- Shared content of C2: the behaviour of the `removed` branch when the
link does hold an active artifact. -/
theorem removed_ok_aux (rid : Nat) (d0 : Record) (st : ProviderState) (a : Artifact)
    (hrem : d0.removed = true) (ha : dictLookup rid st.dashboards = some a) :
    (on_relation_changed true rid (some d0) st).err = none ∧
    (on_relation_changed true rid (some d0) st).out = Output.empty ∧
    dictLookup rid (on_relation_changed true rid (some d0) st).st.dashboards = none ∧
    (on_relation_changed true rid (some d0) st).st.invalid_dashboards
      = st.invalid_dashboards := by
  rw [changed_eq_removed_some rid d0 st a hrem ha]
  exact ⟨rfl, rfl, dictLookup_pop_self rid st.dashboards, rfl⟩

/-- C2 (amended): an inbound record with `removed = true` writes no
feedback, emits nothing, and deletes the link's active-dashboard entry,
leaving the invalid store untouched — but only when the link holds an
active artifact; with no active entry the handler raises `KeyError`
(see `C2_counterexample`), and an invalid-store entry is never deleted. -/
theorem C2_retraction (rid : Nat) (d0 : Record) (st : ProviderState) (a : Artifact)
    (hrem : d0.removed = true) (ha : dictLookup rid st.dashboards = some a) :
    (on_relation_changed true rid (some d0) st).err = none ∧
    (on_relation_changed true rid (some d0) st).out = Output.empty ∧
    dictLookup rid (on_relation_changed true rid (some d0) st).st.dashboards = none ∧
    (on_relation_changed true rid (some d0) st).st.invalid_dashboards
      = st.invalid_dashboards :=
  removed_ok_aux rid d0 st a hrem ha

/-- C2 counterexample: on prior state `absent` (no state at all for the
link), `removed = true` raises `KeyError` from
`self._stored.dashboards.pop(rel.id)` instead of completing. -/
theorem C2_counterexample :
    (on_relation_changed true 1 (some { scenarioRecord with removed := true })
      ⟨[], [], []⟩).err = some PyErr.keyError := rfl

theorem C2_witness :
    (on_relation_changed true 1 (some { scenarioRecord with removed := true })
      ⟨[(1, scenarioArtifact)], [], []⟩).err = none ∧
    (on_relation_changed true 1 (some { scenarioRecord with removed := true })
      ⟨[(1, scenarioArtifact)], [], []⟩).out = Output.empty ∧
    dictLookup 1 (on_relation_changed true 1
      (some { scenarioRecord with removed := true })
      ⟨[(1, scenarioArtifact)], [], []⟩).st.dashboards = none ∧
    (on_relation_changed true 1 (some { scenarioRecord with removed := true })
      ⟨[(1, scenarioArtifact)], [], []⟩).st.invalid_dashboards = [] :=
  C2_retraction 1 { scenarioRecord with removed := true }
    ⟨[(1, scenarioArtifact)], [], []⟩ scenarioArtifact rfl rfl

/-! ## Claim C9 — malformed inbound records -/

/-- Shared content of C9: an undecodable template blob makes the handler
raise (only `TemplateSyntaxError` is caught), though no state is mutated
and no feedback is written before the raise. -/
theorem decode_err_aux (rid : Nat) (d0 : Record) (st : ProviderState) (ds : String)
    (hrem : d0.removed = false) (hinv : d0.invalidated = false)
    (hsrc : st.active_sources.isEmpty = false) (hds : ¬(ds = ""))
    (hf : findDatasource st.active_sources d0.monitoring_identifier = some ds)
    (hd : decodeStr d0.template = none) :
    (on_relation_changed true rid (some d0) st).err = some PyErr.decodeError ∧
    (on_relation_changed true rid (some d0) st).st = st ∧
    (on_relation_changed true rid (some d0) st).out = Output.empty := by
  rw [changed_eq_validate rid d0 st hrem hinv hsrc]
  rw [validate_eq_decodeErr (strip d0) rid st ds hds hf hd]
  exact ⟨rfl, rfl, rfl⟩

/-- C9 (amended): only an absent/empty payload is dropped silently (the
handler returns unchanged); an inbound record whose template blob is
undecodable raises an uncaught codec error, provided the matched
datasource name is non-empty (an empty matched name makes the handler
return silently at the line-350 truthiness guard before ever decoding).
Before the raise no state is mutated and no feedback is written, but the
handler does not complete normally. -/
theorem C9_malformed_record (rid : Nat) (d0 : Record) (st : ProviderState) (ds : String)
    (hrem : d0.removed = false) (hinv : d0.invalidated = false)
    (hsrc : st.active_sources.isEmpty = false) (hds : ¬(ds = ""))
    (hf : findDatasource st.active_sources d0.monitoring_identifier = some ds)
    (hd : decodeStr d0.template = none) :
    (on_relation_changed true rid (some d0) st).err = some PyErr.decodeError ∧
    (on_relation_changed true rid (some d0) st).st = st ∧
    (on_relation_changed true rid (some d0) st).out = Output.empty ∧
    on_relation_changed true rid none st = ⟨st, Output.empty, none⟩ :=
  ⟨(decode_err_aux rid d0 st ds hrem hinv hsrc hds hf hd).1,
    (decode_err_aux rid d0 st ds hrem hinv hsrc hds hf hd).2.1,
    (decode_err_aux rid d0 st ds hrem hinv hsrc hds hf hd).2.2, rfl⟩

/-- C9 counterexample: a record whose template blob is not valid base64
(`"!!!"`) makes the handler raise an uncaught codec error rather than
complete normally. -/
theorem C9_counterexample :
    (on_relation_changed true 1 (some { scenarioRecord with template := "!!!" })
      scenarioState).err = some PyErr.decodeError :=
  (decode_err_aux 1 { scenarioRecord with template := "!!!" } scenarioState
    "model-abc_uuid1_appX [grafana]" rfl rfl rfl (by decide) (by decide) (by decide)).1

theorem C9_witness :
    (on_relation_changed true 2 (some { scenarioRecord with template := "%%" })
      scenarioState).err = some PyErr.decodeError ∧
    (on_relation_changed true 2 (some { scenarioRecord with template := "%%" })
      scenarioState).st = scenarioState ∧
    (on_relation_changed true 2 (some { scenarioRecord with template := "%%" })
      scenarioState).out = Output.empty ∧
    on_relation_changed true 2 none scenarioState = ⟨scenarioState, Output.empty, none⟩ :=
  C9_malformed_record 2 { scenarioRecord with template := "%%" } scenarioState
    "model-abc_uuid1_appX [grafana]" rfl rfl rfl (by decide) (by decide) (by decide)

/-! ## Claim C7 — submit without leadership -/

/-- C7 (amended): without the leadership capability `add_dashboard` writes
no record and changes no stored state; it is a *silent* no-op whenever a
companion prometheus unit is available.  (The companion check runs before
the leadership check, so without a companion relation a status event is
still emitted — see `C7_counterexample`.) -/
theorem C7_nonleader_noop (ids : ConsumerIds) (freshUuid : String) (n : Nat)
    (data : String) (relId : Nat) (st : ConsumerState) :
    add_dashboard false ids freshUuid (some (n + 1)) data relId st
      = ⟨st, ConsumerOut.empty, none⟩ := rfl

/-- C7 counterexample: with leadership *not* held and no `"monitoring"`
relation, `add_dashboard` emits a `dashboard_status_changed` event — it is
not a silent no-op (the prometheus lookup precedes the leadership check). -/
theorem C7_counterexample :
    (add_dashboard false scenarioIds "u2" none "body" 1 ⟨[]⟩).out.statusEvents
      = [⟨msgWaiting, false⟩] := rfl

/-! ## Claim C8 — remove_dashboard always raises -/

/-- C8: with leadership held and a record stored for the link,
`remove_dashboard` raises `TypeError` (the code calls the inner dict's
`.pop()` with no arguments), so the retraction never marks the record
removed, never rewrites the slot, and never drops the bookkeeping entry. -/
theorem C8_remove_dashboard_raises :
    remove_dashboard true 1 ⟨[(1, scenarioRecord)]⟩
      = ⟨⟨[(1, scenarioRecord)]⟩, ConsumerOut.empty, some PyErr.typeError⟩ := rfl

/-! ## Claim C1 — first inbound record with a matching resource -/

/-- Shared content of C1: a first record (no prior state for the link)
whose target matches a resource and whose template decodes, parses and
renders, is stored as an artifact, emits `dashboards_changed` exactly
once, and writes **no** feedback (the success feedback is gated on the
link having been invalid before). -/
theorem first_record_aux (rid : Nat) (d0 : Record) (st : ProviderState)
    (ds tsrc : String) (items : List TItem)
    (hdash : dictLookup rid st.dashboards = none)
    (hinv : dictLookup rid st.invalid_dashboards = none)
    (hrem : d0.removed = false) (hinvf : d0.invalidated = false)
    (hsrc : st.active_sources.isEmpty = false) (hds : ¬(ds = ""))
    (hf : findDatasource st.active_sources d0.monitoring_identifier = some ds)
    (hd : decodeStr d0.template = some tsrc)
    (hp : parseT tsrc.data = some items) :
    (on_relation_changed true rid (some d0) st).err = none ∧
    (on_relation_changed true rid (some d0) st).out.changed = 1 ∧
    (on_relation_changed true rid (some d0) st).out.feedback = [] ∧
    dictLookup rid (on_relation_changed true rid (some d0) st).st.dashboards
      = some ⟨d0.monitoring_identifier,
          encodeStr (String.mk (renderT ds d0.monitoring_target d0.monitoring_query items)),
          strip d0⟩ ∧
    decodeStr
        (encodeStr (String.mk (renderT ds d0.monitoring_target d0.monitoring_query items)))
      = some (String.mk (renderT ds d0.monitoring_target d0.monitoring_query items)) := by
  have hdiff : ∀ a : Artifact,
      dictLookup rid st.dashboards = some a → ¬(a.data = strip d0) := by
    intro a ha
    rw [hdash] at ha
    exact absurd ha (by simp)
  rw [changed_eq_validate rid d0 st hrem hinvf hsrc]
  rw [validate_eq_success_store (strip d0) rid st ds tsrc items hds hf hd hp hdiff]
  have hpr : (dictPop rid st.invalid_dashboards).1 = none := by
    rw [dictPop_fst]
    exact hinv
  refine ⟨rfl, rfl, ?_, ?_, decode_encode _⟩
  · simp [hpr]
  · exact dictLookup_insert_self rid _ st.dashboards

/-- C1 (amended): for a first inbound record on a link (no prior state)
whose target identifier matches a resource with a *non-empty* name and
whose template renders, the Reconciler stores the rendered artifact (whose
blob decodes back to the render output, which contains the matched
resource name), emits `dashboards_changed` exactly once, and writes **no**
feedback: the `{errors: "", valid: true}` document is only written when
the link was previously invalid.  (An empty matched name is silently
skipped by the line-350 truthiness guard, storing and emitting nothing.) -/
theorem C1_first_record (rid : Nat) (d0 : Record) (st : ProviderState)
    (ds tsrc : String) (items : List TItem)
    (hdash : dictLookup rid st.dashboards = none)
    (hinv : dictLookup rid st.invalid_dashboards = none)
    (hrem : d0.removed = false) (hinvf : d0.invalidated = false)
    (hsrc : st.active_sources.isEmpty = false) (hds : ¬(ds = ""))
    (hf : findDatasource st.active_sources d0.monitoring_identifier = some ds)
    (hd : decodeStr d0.template = some tsrc)
    (hp : parseT tsrc.data = some items) :
    (on_relation_changed true rid (some d0) st).err = none ∧
    (on_relation_changed true rid (some d0) st).out.changed = 1 ∧
    (on_relation_changed true rid (some d0) st).out.feedback = [] ∧
    dictLookup rid (on_relation_changed true rid (some d0) st).st.dashboards
      = some ⟨d0.monitoring_identifier,
          encodeStr (String.mk (renderT ds d0.monitoring_target d0.monitoring_query items)),
          strip d0⟩ ∧
    decodeStr
        (encodeStr (String.mk (renderT ds d0.monitoring_target d0.monitoring_query items)))
      = some (String.mk (renderT ds d0.monitoring_target d0.monitoring_query items)) :=
  first_record_aux rid d0 st ds tsrc items hdash hinv hrem hinvf hsrc hds hf hd hp

/-- C1 counterexample: on the spec's own scenario (first record,
matching resource, rendering template) the handler stores the artifact and
emits once but writes **no** feedback document at all, refuting the claimed
`{errors: "", valid: true}` write. -/
theorem C1_counterexample :
    (on_relation_changed true 1 (some scenarioRecord) scenarioState).out.feedback = [] ∧
    (on_relation_changed true 1 (some scenarioRecord) scenarioState).out.changed = 1 ∧
    (on_relation_changed true 1 (some scenarioRecord) scenarioState).err = none :=
  have h := first_record_aux 1 scenarioRecord scenarioState
    "model-abc_uuid1_appX [grafana]" scenarioTemplate
    [TItem.var "grafana_datasource".data]
    rfl rfl rfl rfl rfl (by decide) (by decide) (decode_encode scenarioTemplate) (by decide)
  ⟨h.2.2.1, h.2.1, h.1⟩

theorem C1_witness :
    (on_relation_changed true 7 (some scenarioRecord)
      ⟨[], [], scenarioSources⟩).err = none ∧
    (on_relation_changed true 7 (some scenarioRecord)
      ⟨[], [], scenarioSources⟩).out.changed = 1 ∧
    (on_relation_changed true 7 (some scenarioRecord)
      ⟨[], [], scenarioSources⟩).out.feedback = [] ∧
    dictLookup 7 (on_relation_changed true 7 (some scenarioRecord)
      ⟨[], [], scenarioSources⟩).st.dashboards
      = some ⟨scenarioRecord.monitoring_identifier,
          encodeStr (String.mk (renderT "model-abc_uuid1_appX [grafana]"
            scenarioRecord.monitoring_target scenarioRecord.monitoring_query
            [TItem.var "grafana_datasource".data])),
          strip scenarioRecord⟩ ∧
    decodeStr (encodeStr (String.mk (renderT "model-abc_uuid1_appX [grafana]"
        scenarioRecord.monitoring_target scenarioRecord.monitoring_query
        [TItem.var "grafana_datasource".data])))
      = some (String.mk (renderT "model-abc_uuid1_appX [grafana]"
          scenarioRecord.monitoring_target scenarioRecord.monitoring_query
          [TItem.var "grafana_datasource".data])) :=
  C1_first_record 7 scenarioRecord ⟨[], [], scenarioSources⟩
    "model-abc_uuid1_appX [grafana]" scenarioTemplate
    [TItem.var "grafana_datasource".data]
    rfl rfl rfl rfl rfl (by decide) (by decide) (decode_encode scenarioTemplate) (by decide)

/-! ## Frame lemmas: validation of one link leaves other links alone -/

theorem Output.append_empty (o : Output) : Output.append o Output.empty = o := by
  cases o
  simp [Output.append, Output.empty]

theorem validate_frame (d : Record) (rid L : Nat) (st : ProviderState) (hne : rid ≠ L) :
    dictLookup L (validate_dashboard_data d rid st).st.dashboards
      = dictLookup L st.dashboards ∧
    dictLookup L (validate_dashboard_data d rid st).st.invalid_dashboards
      = dictLookup L st.invalid_dashboards ∧
    (∀ p ∈ (validate_dashboard_data d rid st).out.feedback, p.1 = rid) := by
  have hL : L ≠ rid := Ne.symm hne
  cases hf : findDatasource st.active_sources d.monitoring_identifier with
  | none =>
    rw [validate_eq_noMatch d rid st hf]
    refine ⟨dictLookup_pop_ne _ hL, dictLookup_insert_ne _ _ hL, ?_⟩
    intro p hp
    simp only [List.mem_singleton] at hp
    rw [hp]
  | some ds =>
    by_cases hds : ds = ""
    · subst hds
      rw [validate_eq_emptyDs d rid st hf]
      exact ⟨rfl, rfl, fun p hp => absurd hp (by simp [Output.empty])⟩
    cases hd : decodeStr d.template with
    | none =>
      rw [validate_eq_decodeErr d rid st ds hds hf hd]
      exact ⟨rfl, rfl, by intro p hp; simp [Output.empty] at hp⟩
    | some tsrc =>
      cases hp : parseT tsrc.data with
      | none =>
        rw [validate_eq_syntaxErr d rid st ds tsrc hds hf hd hp]
        refine ⟨dictLookup_pop_ne _ hL, rfl, ?_⟩
        intro p hp2
        simp only [List.mem_singleton] at hp2
        rw [hp2]
      | some items =>
        by_cases hsame : ∃ a : Artifact, dictLookup rid st.dashboards = some a ∧ a.data = d
        · obtain ⟨a, ha, had⟩ := hsame
          rw [validate_eq_success_same d rid st ds tsrc items a hds hf hd hp ha had]
          refine ⟨rfl, dictLookup_pop_ne _ hL, ?_⟩
          intro p hp2
          simp only [] at hp2
          split at hp2
          · simp at hp2
          · simp only [List.mem_singleton] at hp2
            rw [hp2]
        · have hdiff : ∀ a : Artifact, dictLookup rid st.dashboards = some a → ¬(a.data = d) :=
            fun a ha had => hsame ⟨a, ha, had⟩
          rw [validate_eq_success_store d rid st ds tsrc items hds hf hd hp hdiff]
          refine ⟨dictLookup_insert_ne _ _ hL, dictLookup_pop_ne _ hL, ?_⟩
          intro p hp2
          simp only [] at hp2
          split at hp2
          · simp at hp2
          · simp only [List.mem_singleton] at hp2
            rw [hp2]

theorem sweep_frame (entries : List (Nat × Record)) (L : Nat) (st : ProviderState)
    (hk : ∀ p ∈ entries, p.1 ≠ L) :
    dictLookup L (sweep entries st).st.dashboards = dictLookup L st.dashboards ∧
    dictLookup L (sweep entries st).st.invalid_dashboards
      = dictLookup L st.invalid_dashboards ∧
    (∀ p ∈ (sweep entries st).out.feedback, p.1 ≠ L) := by
  induction entries generalizing st with
  | nil =>
    rw [sweep_nil]
    exact ⟨rfl, rfl, by intro p hp; simp [Output.empty] at hp⟩
  | cons q rest ih =>
    obtain ⟨rid, d⟩ := q
    have hrid : rid ≠ L := hk (rid, d) (by simp)
    have hv := validate_frame d rid L st hrid
    cases he : (validate_dashboard_data d rid st).err with
    | some e =>
      rw [sweep_cons_err rid d rest st e he]
      exact ⟨hv.1, hv.2.1, fun p hp => hv.2.2 p hp ▸ hrid⟩
    | none =>
      rw [sweep_cons_ok rid d rest st he]
      have hrest := ih (validate_dashboard_data d rid st).st
        (fun p hp => hk p (by simp [hp]))
      refine ⟨hrest.1.trans hv.1, hrest.2.1.trans hv.2.1, ?_⟩
      intro p hp
      simp only [Output.append, List.mem_append] at hp
      rcases hp with hp | hp
      · exact hv.2.2 p hp ▸ hrid
      · exact hrest.2.2 p hp

/-! ## Claim C3 — monotonic recovery of an invalid link -/

/-- Shared content of C3: a link whose record sits in the invalid store,
once `renew_dashboards` runs with a resource set containing a match for
the record's target identifier (and the record's template decodes and
parses), ends with an active artifact for the record, no invalid entry,
and exactly one `{errors: "", valid: true}` feedback write for that link. -/
theorem invalid_recovery_aux (L : Nat) (r : Record) (st : ProviderState)
    (sources : List Source) (tsrc : String) (items : List TItem)
    (hinv : st.invalid_dashboards = [(L, r)])
    (hdash : dictLookup L st.dashboards = none)
    (hmatch : ∃ src ∈ sources, strContains src.sourceName r.monitoring_identifier = true)
    (hnames : ∀ src ∈ sources, ¬(src.sourceName = ""))
    (hd : decodeStr r.template = some tsrc)
    (hp : parseT tsrc.data = some items) :
    (∃ a : Artifact,
      dictLookup L (renew_dashboards sources st).st.dashboards = some a ∧ a.data = r) ∧
    dictLookup L (renew_dashboards sources st).st.invalid_dashboards = none ∧
    (renew_dashboards sources st).out.feedback.filter (fun p => p.1 == L)
      = [(L, ⟨"", true⟩)] := by
  obtain ⟨ds, hf⟩ := findDatasource_isSome sources r.monitoring_identifier hmatch
  have hds : ¬(ds = "") := by
    obtain ⟨src, hsm, hse⟩ := findDatasource_mem sources r.monitoring_identifier ds hf
    exact hse ▸ hnames src hsm
  have hdiff : ∀ a : Artifact,
      dictLookup L ({ st with active_sources := sources } : ProviderState).dashboards
        = some a → ¬(a.data = r) := by
    intro a ha
    rw [show ({ st with active_sources := sources } : ProviderState).dashboards
      = st.dashboards from rfl, hdash] at ha
    exact absurd ha (by simp)
  have hval : validate_dashboard_data r L { st with active_sources := sources }
      = ⟨⟨dictInsert L
            ⟨r.monitoring_identifier,
              encodeStr (String.mk (renderT ds r.monitoring_target r.monitoring_query items)),
              r⟩ st.dashboards, [], sources⟩,
          ⟨1, [(L, ⟨"", true⟩)]⟩, none⟩ := by
    rw [validate_eq_success_store r L { st with active_sources := sources } ds tsrc items
      hds hf hd hp hdiff]
    simp [hinv, dictPop]
  have hconv : sweep st.invalid_dashboards { st with active_sources := sources }
      = sweep [(L, r)] { st with active_sources := sources } := by
    rw [hinv]
  have hsw1 : sweep [(L, r)] { st with active_sources := sources }
      = ⟨⟨dictInsert L
            ⟨r.monitoring_identifier,
              encodeStr (String.mk (renderT ds r.monitoring_target r.monitoring_query items)),
              r⟩ st.dashboards, [], sources⟩,
          ⟨1, [(L, ⟨"", true⟩)]⟩, none⟩ := by
    rw [sweep_cons_ok L r [] { st with active_sources := sources } (by rw [hval])]
    rw [hval, sweep_nil]
    rw [Output.append_empty]
  have herr : (sweep st.invalid_dashboards { st with active_sources := sources }).err
      = none := by
    rw [hconv, hsw1]
  rw [renew_eq_ok sources st herr, hconv, hsw1]
  have hkeys : ∀ p ∈ st.dashboards.map (fun p => (p.1, p.2.data)), p.1 ≠ L := by
    intro p hp
    rw [List.mem_map] at hp
    obtain ⟨q, hq, hqe⟩ := hp
    rw [← hqe]
    exact dictLookup_eq_none_forall hdash q hq
  have hfr := sweep_frame (st.dashboards.map (fun p => (p.1, p.2.data))) L
    ⟨dictInsert L
        ⟨r.monitoring_identifier,
          encodeStr (String.mk (renderT ds r.monitoring_target r.monitoring_query items)),
          r⟩ st.dashboards, [], sources⟩ hkeys
  refine ⟨⟨⟨r.monitoring_identifier,
      encodeStr (String.mk (renderT ds r.monitoring_target r.monitoring_query items)), r⟩,
      ?_, rfl⟩, ?_, ?_⟩
  · rw [hfr.1]
    exact dictLookup_insert_self L _ st.dashboards
  · rw [hfr.2.1]
    rfl
  · simp only [Output.append, List.filter_append]
    rw [filter_keys_ne _ hfr.2.2]
    simp

/-- C3 (amended): monotonic recovery — a link in the invalid state, when
`renew_dashboards` is called with a resource set of non-empty-named
resources one of which contains the record's target identifier (and the
record's template renders), transitions to active and receives feedback
`{errors: "", valid: true}` exactly once — provided the sweep reaches the
link: here the link is the sole invalid entry (other active links are
arbitrary).  An invalid entry swept earlier whose blob is undecodable
makes `renew_dashboards` raise first and the link stays invalid with no
feedback (see `C3_counterexample`). -/
theorem C3_invalid_recovery (L : Nat) (r : Record) (st : ProviderState)
    (sources : List Source) (tsrc : String) (items : List TItem)
    (hinv : st.invalid_dashboards = [(L, r)])
    (hdash : dictLookup L st.dashboards = none)
    (hmatch : ∃ src ∈ sources, strContains src.sourceName r.monitoring_identifier = true)
    (hnames : ∀ src ∈ sources, ¬(src.sourceName = ""))
    (hd : decodeStr r.template = some tsrc)
    (hp : parseT tsrc.data = some items) :
    (∃ a : Artifact,
      dictLookup L (renew_dashboards sources st).st.dashboards = some a ∧ a.data = r) ∧
    dictLookup L (renew_dashboards sources st).st.invalid_dashboards = none ∧
    (renew_dashboards sources st).out.feedback.filter (fun p => p.1 == L)
      = [(L, ⟨"", true⟩)] :=
  invalid_recovery_aux L r st sources tsrc items hinv hdash hmatch hnames hd hp

/-- C3 counterexample: with another invalid entry (matching the new
resource set, undecodable blob) inserted before link 1, the sweep raises
on the first entry and aborts: link 1 stays in the invalid store, gains no
artifact, and receives no feedback — refuting the claim as stated, whose
hypotheses (link 1 invalid, matching resource, renderable template) all
hold here. -/
theorem C3_counterexample :
    (renew_dashboards scenarioSources
      ⟨[], [(0, badBlobRecord "model-abc"), (1, strip scenarioRecord)], []⟩).err
      = some PyErr.decodeError ∧
    dictLookup 1 (renew_dashboards scenarioSources
      ⟨[], [(0, badBlobRecord "model-abc"),
        (1, strip scenarioRecord)], []⟩).st.invalid_dashboards
      = some (strip scenarioRecord) ∧
    dictLookup 1 (renew_dashboards scenarioSources
      ⟨[], [(0, badBlobRecord "model-abc"), (1, strip scenarioRecord)], []⟩).st.dashboards
      = none ∧
    (renew_dashboards scenarioSources
      ⟨[], [(0, badBlobRecord "model-abc"), (1, strip scenarioRecord)], []⟩).out.feedback
      = [] :=
  ⟨rfl, rfl, rfl, rfl⟩

theorem C3_witness :
    (∃ a : Artifact,
      dictLookup 1 (renew_dashboards scenarioSources
        ⟨[], [(1, strip scenarioRecord)], []⟩).st.dashboards = some a
        ∧ a.data = strip scenarioRecord) ∧
    dictLookup 1 (renew_dashboards scenarioSources
      ⟨[], [(1, strip scenarioRecord)], []⟩).st.invalid_dashboards = none ∧
    (renew_dashboards scenarioSources
      ⟨[], [(1, strip scenarioRecord)], []⟩).out.feedback.filter (fun p => p.1 == 1)
      = [(1, ⟨"", true⟩)] :=
  C3_invalid_recovery 1 (strip scenarioRecord) ⟨[], [(1, strip scenarioRecord)], []⟩
    scenarioSources scenarioTemplate [TItem.var "grafana_datasource".data]
    rfl rfl (by decide) (by decide) (decode_encode scenarioTemplate) (by decide)

/-! ## Claim C4 — resource loss invalidates an active link -/

/-- Shared content of C4: an active link whose resource disappears from
the set handed to `renew_dashboards` is purged (exactly one
`dashboards_changed`), moved to the invalid store, and receives feedback
with a non-empty error and `valid = false`. -/
theorem active_loss_aux (L : Nat) (art : Artifact) (st : ProviderState)
    (sources : List Source)
    (hdash : st.dashboards = [(L, art)])
    (hinv : st.invalid_dashboards = [])
    (hnm : ∀ src ∈ sources,
      strContains src.sourceName art.data.monitoring_identifier = false) :
    (renew_dashboards sources st).err = none ∧
    (renew_dashboards sources st).out.changed = 1 ∧
    (renew_dashboards sources st).out.feedback = [(L, ⟨msgNoMatch, false⟩)] ∧
    ¬(msgNoMatch = "") ∧
    dictLookup L (renew_dashboards sources st).st.dashboards = none ∧
    dictLookup L (renew_dashboards sources st).st.invalid_dashboards
      = some art.data := by
  have hf : findDatasource ({ st with active_sources := sources } :
      ProviderState).active_sources art.data.monitoring_identifier = none :=
    findDatasource_eq_none sources art.data.monitoring_identifier hnm
  have hval : validate_dashboard_data art.data L { st with active_sources := sources }
      = ⟨⟨[], [(L, art.data)], sources⟩, ⟨1, [(L, ⟨msgNoMatch, false⟩)]⟩, none⟩ := by
    rw [validate_eq_noMatch art.data L { st with active_sources := sources } hf]
    simp [hdash, hinv, dictPop, dictLookup, dictInsert]
  have hsw1 : sweep st.invalid_dashboards { st with active_sources := sources }
      = ⟨{ st with active_sources := sources }, Output.empty, none⟩ := by
    rw [hinv]
    exact sweep_nil _
  have herr : (sweep st.invalid_dashboards { st with active_sources := sources }).err
      = none := by
    rw [hsw1]
  rw [renew_eq_ok sources st herr, hsw1]
  have hact : st.dashboards.map (fun p => (p.1, p.2.data)) = [(L, art.data)] := by
    rw [hdash]
    rfl
  rw [hact]
  have hsw2 : sweep [(L, art.data)] { st with active_sources := sources }
      = ⟨⟨[], [(L, art.data)], sources⟩, ⟨1, [(L, ⟨msgNoMatch, false⟩)]⟩, none⟩ := by
    rw [sweep_cons_ok L art.data [] { st with active_sources := sources } (by rw [hval])]
    rw [hval, sweep_nil]
    rw [Output.append_empty]
  rw [hsw2]
  refine ⟨rfl, rfl, rfl, by decide, rfl, by simp [dictLookup]⟩

/-- C4 (amended): resource loss — a link in the active state, when
`renew_dashboards` runs with a resource set in which no name contains the
record's target identifier, transitions to invalid, fires exactly one
`dashboards_changed` (purging the stale artifact), and receives feedback
with a non-empty error string and `valid = false` — provided the
invalid-store sweep that runs first completes without raising (here the
invalid store is empty and the link is the sole active entry).  An invalid
entry matching the new set with an undecodable blob aborts
`renew_dashboards` before the active sweep, leaving the link active with
no emission or feedback (see `C4_counterexample`). -/
theorem C4_active_loss (L : Nat) (art : Artifact) (st : ProviderState)
    (sources : List Source)
    (hdash : st.dashboards = [(L, art)])
    (hinv : st.invalid_dashboards = [])
    (hnm : ∀ src ∈ sources,
      strContains src.sourceName art.data.monitoring_identifier = false) :
    (renew_dashboards sources st).err = none ∧
    (renew_dashboards sources st).out.changed = 1 ∧
    (renew_dashboards sources st).out.feedback = [(L, ⟨msgNoMatch, false⟩)] ∧
    ¬(msgNoMatch = "") ∧
    dictLookup L (renew_dashboards sources st).st.dashboards = none ∧
    dictLookup L (renew_dashboards sources st).st.invalid_dashboards
      = some art.data :=
  active_loss_aux L art st sources hdash hinv hnm

/-- C4 counterexample: an invalid entry whose identifier matches the new
resource set but whose blob is undecodable makes the invalid sweep raise
before the active dashboards are re-validated: the active link keeps its
artifact, nothing is emitted, no feedback is written — refuting the claim
as stated, whose hypotheses (link 1 active, no matching resource for its
record in the new set) hold here. -/
theorem C4_counterexample :
    (renew_dashboards [⟨"other"⟩]
      ⟨[(1, scenarioArtifact)], [(0, badBlobRecord "oth")], scenarioSources⟩).err
      = some PyErr.decodeError ∧
    (renew_dashboards [⟨"other"⟩]
      ⟨[(1, scenarioArtifact)], [(0, badBlobRecord "oth")], scenarioSources⟩).out.changed
      = 0 ∧
    (renew_dashboards [⟨"other"⟩]
      ⟨[(1, scenarioArtifact)], [(0, badBlobRecord "oth")], scenarioSources⟩).out.feedback
      = [] ∧
    dictLookup 1 (renew_dashboards [⟨"other"⟩]
      ⟨[(1, scenarioArtifact)], [(0, badBlobRecord "oth")], scenarioSources⟩).st.dashboards
      = some scenarioArtifact ∧
    dictLookup 1 (renew_dashboards [⟨"other"⟩]
      ⟨[(1, scenarioArtifact)], [(0, badBlobRecord "oth")],
        scenarioSources⟩).st.invalid_dashboards
      = none :=
  ⟨rfl, rfl, rfl, rfl, rfl⟩

theorem C4_witness :
    (renew_dashboards [⟨"other"⟩]
      ⟨[(1, scenarioArtifact)], [], scenarioSources⟩).err = none ∧
    (renew_dashboards [⟨"other"⟩]
      ⟨[(1, scenarioArtifact)], [], scenarioSources⟩).out.changed = 1 ∧
    (renew_dashboards [⟨"other"⟩]
      ⟨[(1, scenarioArtifact)], [], scenarioSources⟩).out.feedback
      = [(1, ⟨msgNoMatch, false⟩)] ∧
    ¬(msgNoMatch = "") ∧
    dictLookup 1 (renew_dashboards [⟨"other"⟩]
      ⟨[(1, scenarioArtifact)], [], scenarioSources⟩).st.dashboards = none ∧
    dictLookup 1 (renew_dashboards [⟨"other"⟩]
      ⟨[(1, scenarioArtifact)], [], scenarioSources⟩).st.invalid_dashboards
      = some scenarioArtifact.data :=
  C4_active_loss 1 scenarioArtifact ⟨[(1, scenarioArtifact)], [], scenarioSources⟩
    [⟨"other"⟩] rfl rfl (by decide)

end GrafanaDashboard
